import Mathlib

set_option autoImplicit false

namespace Wabt

/-! Shallow embedding of the wabt core IR (`src/ir.h`) and the opcode
catalogue (`src/opcode.def`).  Functions whose bodies live in `ir.cc`,
`opcode.cc` or `common.h` (absent from the sources at hand) are modelled
from the specification and say so in their doc comments. -/

/-- Value types of the opcode catalogue columns (`Type` in the source; the
marker `___` in `opcode.def` denotes the absence of a type and is mapped to
`Void`). -/
inductive Ty where
  | I32
  | I64
  | F32
  | F64
  | V128
  | Funcref
  | Anyref
  | Void
deriving DecidableEq

/-- One row of the opcode catalogue, `WABT_OPCODE(tr, t1, t2, t3, m, prefix,
code, Name, text, decomp)` in `opcode.def`.  The prefix-byte column is named
`pfx` here; `name` holds the enum `Name` as a string. -/
structure OpcodeInfo where
  tr : Ty
  t1 : Ty
  t2 : Ty
  t3 : Ty
  memSize : Nat
  pfx : Nat
  code : Nat
  name : String
  text : String
  decomp : String
deriving DecidableEq

/-! The catalogue itself: one entry per `WABT_OPCODE` row of `opcode.def`,
in declaration order.  The list is split into chunks of sixty rows purely
because very long list literals elaborate slowly; `opcodeInfos` is their
concatenation in the source's order. -/

def opcodeInfosChunk0 : List OpcodeInfo := [
⟨Ty.Void, Ty.Void, Ty.Void, Ty.Void, 0, 0x0, 0x0, "Unreachable", "unreachable", ""⟩,
  ⟨Ty.Void, Ty.Void, Ty.Void, Ty.Void, 0, 0x0, 0x1, "Nop", "nop", ""⟩,
  ⟨Ty.Void, Ty.Void, Ty.Void, Ty.Void, 0, 0x0, 0x2, "Block", "block", ""⟩,
  ⟨Ty.Void, Ty.Void, Ty.Void, Ty.Void, 0, 0x0, 0x3, "Loop", "loop", ""⟩,
  ⟨Ty.Void, Ty.Void, Ty.Void, Ty.Void, 0, 0x0, 0x4, "If", "if", ""⟩,
  ⟨Ty.Void, Ty.Void, Ty.Void, Ty.Void, 0, 0x0, 0x5, "Else", "else", ""⟩,
  ⟨Ty.Void, Ty.Void, Ty.Void, Ty.Void, 0, 0x0, 0x6, "Try", "try", ""⟩,
  ⟨Ty.Void, Ty.Void, Ty.Void, Ty.Void, 0, 0x0, 0x7, "Catch", "catch", ""⟩,
  ⟨Ty.Void, Ty.Void, Ty.Void, Ty.Void, 0, 0x0, 0x8, "Throw", "throw", ""⟩,
  ⟨Ty.Void, Ty.Void, Ty.Void, Ty.Void, 0, 0x0, 0x9, "Rethrow", "rethrow", ""⟩,
  ⟨Ty.Void, Ty.Void, Ty.Void, Ty.Void, 0, 0x0, 0xa, "BrOnExn", "br_on_exn", ""⟩,
  ⟨Ty.Void, Ty.Void, Ty.Void, Ty.Void, 0, 0x0, 0xb, "End", "end", ""⟩,
  ⟨Ty.Void, Ty.Void, Ty.Void, Ty.Void, 0, 0x0, 0xc, "Br", "br", ""⟩,
  ⟨Ty.Void, Ty.Void, Ty.Void, Ty.Void, 0, 0x0, 0xd, "BrIf", "br_if", ""⟩,
  ⟨Ty.Void, Ty.Void, Ty.Void, Ty.Void, 0, 0x0, 0xe, "BrTable", "br_table", ""⟩,
  ⟨Ty.Void, Ty.Void, Ty.Void, Ty.Void, 0, 0x0, 0xf, "Return", "return", ""⟩,
  ⟨Ty.Void, Ty.Void, Ty.Void, Ty.Void, 0, 0x0, 0x10, "Call", "call", ""⟩,
  ⟨Ty.Void, Ty.Void, Ty.Void, Ty.Void, 0, 0x0, 0x11, "CallIndirect", "call_indirect", ""⟩,
  ⟨Ty.Void, Ty.Void, Ty.Void, Ty.Void, 0, 0x0, 0x12, "ReturnCall", "return_call", ""⟩,
  ⟨Ty.Void, Ty.Void, Ty.Void, Ty.Void, 0, 0x0, 0x13, "ReturnCallIndirect", "return_call_indirect", ""⟩,
  ⟨Ty.Void, Ty.Void, Ty.Void, Ty.Void, 0, 0x0, 0x1a, "Drop", "drop", ""⟩,
  ⟨Ty.Void, Ty.Void, Ty.Void, Ty.Void, 0, 0x0, 0x1b, "Select", "select", ""⟩,
  ⟨Ty.Void, Ty.Void, Ty.Void, Ty.Void, 0, 0x0, 0x20, "LocalGet", "local.get", ""⟩,
  ⟨Ty.Void, Ty.Void, Ty.Void, Ty.Void, 0, 0x0, 0x21, "LocalSet", "local.set", ""⟩,
  ⟨Ty.Void, Ty.Void, Ty.Void, Ty.Void, 0, 0x0, 0x22, "LocalTee", "local.tee", ""⟩,
  ⟨Ty.Void, Ty.Void, Ty.Void, Ty.Void, 0, 0x0, 0x23, "GlobalGet", "global.get", ""⟩,
  ⟨Ty.Void, Ty.Void, Ty.Void, Ty.Void, 0, 0x0, 0x24, "GlobalSet", "global.set", ""⟩,
  ⟨Ty.I32, Ty.I32, Ty.Void, Ty.Void, 4, 0x0, 0x28, "I32Load", "i32.load", ""⟩,
  ⟨Ty.I64, Ty.I32, Ty.Void, Ty.Void, 8, 0x0, 0x29, "I64Load", "i64.load", ""⟩,
  ⟨Ty.F32, Ty.I32, Ty.Void, Ty.Void, 4, 0x0, 0x2a, "F32Load", "f32.load", ""⟩,
  ⟨Ty.F64, Ty.I32, Ty.Void, Ty.Void, 8, 0x0, 0x2b, "F64Load", "f64.load", ""⟩,
  ⟨Ty.I32, Ty.I32, Ty.Void, Ty.Void, 1, 0x0, 0x2c, "I32Load8S", "i32.load8_s", ""⟩,
  ⟨Ty.I32, Ty.I32, Ty.Void, Ty.Void, 1, 0x0, 0x2d, "I32Load8U", "i32.load8_u", ""⟩,
  ⟨Ty.I32, Ty.I32, Ty.Void, Ty.Void, 2, 0x0, 0x2e, "I32Load16S", "i32.load16_s", ""⟩,
  ⟨Ty.I32, Ty.I32, Ty.Void, Ty.Void, 2, 0x0, 0x2f, "I32Load16U", "i32.load16_u", ""⟩,
  ⟨Ty.I64, Ty.I32, Ty.Void, Ty.Void, 1, 0x0, 0x30, "I64Load8S", "i64.load8_s", ""⟩,
  ⟨Ty.I64, Ty.I32, Ty.Void, Ty.Void, 1, 0x0, 0x31, "I64Load8U", "i64.load8_u", ""⟩,
  ⟨Ty.I64, Ty.I32, Ty.Void, Ty.Void, 2, 0x0, 0x32, "I64Load16S", "i64.load16_s", ""⟩,
  ⟨Ty.I64, Ty.I32, Ty.Void, Ty.Void, 2, 0x0, 0x33, "I64Load16U", "i64.load16_u", ""⟩,
  ⟨Ty.I64, Ty.I32, Ty.Void, Ty.Void, 4, 0x0, 0x34, "I64Load32S", "i64.load32_s", ""⟩,
  ⟨Ty.I64, Ty.I32, Ty.Void, Ty.Void, 4, 0x0, 0x35, "I64Load32U", "i64.load32_u", ""⟩,
  ⟨Ty.Void, Ty.I32, Ty.I32, Ty.Void, 4, 0x0, 0x36, "I32Store", "i32.store", ""⟩,
  ⟨Ty.Void, Ty.I32, Ty.I64, Ty.Void, 8, 0x0, 0x37, "I64Store", "i64.store", ""⟩,
  ⟨Ty.Void, Ty.I32, Ty.F32, Ty.Void, 4, 0x0, 0x38, "F32Store", "f32.store", ""⟩,
  ⟨Ty.Void, Ty.I32, Ty.F64, Ty.Void, 8, 0x0, 0x39, "F64Store", "f64.store", ""⟩,
  ⟨Ty.Void, Ty.I32, Ty.I32, Ty.Void, 1, 0x0, 0x3a, "I32Store8", "i32.store8", ""⟩,
  ⟨Ty.Void, Ty.I32, Ty.I32, Ty.Void, 2, 0x0, 0x3b, "I32Store16", "i32.store16", ""⟩,
  ⟨Ty.Void, Ty.I32, Ty.I64, Ty.Void, 1, 0x0, 0x3c, "I64Store8", "i64.store8", ""⟩,
  ⟨Ty.Void, Ty.I32, Ty.I64, Ty.Void, 2, 0x0, 0x3d, "I64Store16", "i64.store16", ""⟩,
  ⟨Ty.Void, Ty.I32, Ty.I64, Ty.Void, 4, 0x0, 0x3e, "I64Store32", "i64.store32", ""⟩,
  ⟨Ty.I32, Ty.Void, Ty.Void, Ty.Void, 0, 0x0, 0x3f, "MemorySize", "memory.size", ""⟩,
  ⟨Ty.I32, Ty.I32, Ty.Void, Ty.Void, 0, 0x0, 0x40, "MemoryGrow", "memory.grow", ""⟩,
  ⟨Ty.I32, Ty.Void, Ty.Void, Ty.Void, 0, 0x0, 0x41, "I32Const", "i32.const", ""⟩,
  ⟨Ty.I64, Ty.Void, Ty.Void, Ty.Void, 0, 0x0, 0x42, "I64Const", "i64.const", ""⟩,
  ⟨Ty.F32, Ty.Void, Ty.Void, Ty.Void, 0, 0x0, 0x43, "F32Const", "f32.const", ""⟩,
  ⟨Ty.F64, Ty.Void, Ty.Void, Ty.Void, 0, 0x0, 0x44, "F64Const", "f64.const", ""⟩,
  ⟨Ty.I32, Ty.I32, Ty.Void, Ty.Void, 0, 0x0, 0x45, "I32Eqz", "i32.eqz", "=="⟩,
  ⟨Ty.I32, Ty.I32, Ty.I32, Ty.Void, 0, 0x0, 0x46, "I32Eq", "i32.eq", "=="⟩,
  ⟨Ty.I32, Ty.I32, Ty.I32, Ty.Void, 0, 0x0, 0x47, "I32Ne", "i32.ne", "!="⟩,
  ⟨Ty.I32, Ty.I32, Ty.I32, Ty.Void, 0, 0x0, 0x48, "I32LtS", "i32.lt_s", "<"⟩
]

def opcodeInfosChunk1 : List OpcodeInfo := [
  ⟨Ty.I32, Ty.I32, Ty.I32, Ty.Void, 0, 0x0, 0x49, "I32LtU", "i32.lt_u", "<"⟩,
  ⟨Ty.I32, Ty.I32, Ty.I32, Ty.Void, 0, 0x0, 0x4a, "I32GtS", "i32.gt_s", ">"⟩,
  ⟨Ty.I32, Ty.I32, Ty.I32, Ty.Void, 0, 0x0, 0x4b, "I32GtU", "i32.gt_u", ">"⟩,
  ⟨Ty.I32, Ty.I32, Ty.I32, Ty.Void, 0, 0x0, 0x4c, "I32LeS", "i32.le_s", "<="⟩,
  ⟨Ty.I32, Ty.I32, Ty.I32, Ty.Void, 0, 0x0, 0x4d, "I32LeU", "i32.le_u", "<="⟩,
  ⟨Ty.I32, Ty.I32, Ty.I32, Ty.Void, 0, 0x0, 0x4e, "I32GeS", "i32.ge_s", ">="⟩,
  ⟨Ty.I32, Ty.I32, Ty.I32, Ty.Void, 0, 0x0, 0x4f, "I32GeU", "i32.ge_u", ">="⟩,
  ⟨Ty.I32, Ty.I64, Ty.Void, Ty.Void, 0, 0x0, 0x50, "I64Eqz", "i64.eqz", "=="⟩,
  ⟨Ty.I32, Ty.I64, Ty.I64, Ty.Void, 0, 0x0, 0x51, "I64Eq", "i64.eq", "=="⟩,
  ⟨Ty.I32, Ty.I64, Ty.I64, Ty.Void, 0, 0x0, 0x52, "I64Ne", "i64.ne", "!="⟩,
  ⟨Ty.I32, Ty.I64, Ty.I64, Ty.Void, 0, 0x0, 0x53, "I64LtS", "i64.lt_s", "<"⟩,
  ⟨Ty.I32, Ty.I64, Ty.I64, Ty.Void, 0, 0x0, 0x54, "I64LtU", "i64.lt_u", "<"⟩,
  ⟨Ty.I32, Ty.I64, Ty.I64, Ty.Void, 0, 0x0, 0x55, "I64GtS", "i64.gt_s", ">"⟩,
  ⟨Ty.I32, Ty.I64, Ty.I64, Ty.Void, 0, 0x0, 0x56, "I64GtU", "i64.gt_u", ">"⟩,
  ⟨Ty.I32, Ty.I64, Ty.I64, Ty.Void, 0, 0x0, 0x57, "I64LeS", "i64.le_s", "<="⟩,
  ⟨Ty.I32, Ty.I64, Ty.I64, Ty.Void, 0, 0x0, 0x58, "I64LeU", "i64.le_u", "<="⟩,
  ⟨Ty.I32, Ty.I64, Ty.I64, Ty.Void, 0, 0x0, 0x59, "I64GeS", "i64.ge_s", ">="⟩,
  ⟨Ty.I32, Ty.I64, Ty.I64, Ty.Void, 0, 0x0, 0x5a, "I64GeU", "i64.ge_u", ">="⟩,
  ⟨Ty.I32, Ty.F32, Ty.F32, Ty.Void, 0, 0x0, 0x5b, "F32Eq", "f32.eq", "=="⟩,
  ⟨Ty.I32, Ty.F32, Ty.F32, Ty.Void, 0, 0x0, 0x5c, "F32Ne", "f32.ne", "!="⟩,
  ⟨Ty.I32, Ty.F32, Ty.F32, Ty.Void, 0, 0x0, 0x5d, "F32Lt", "f32.lt", "<"⟩,
  ⟨Ty.I32, Ty.F32, Ty.F32, Ty.Void, 0, 0x0, 0x5e, "F32Gt", "f32.gt", ">"⟩,
  ⟨Ty.I32, Ty.F32, Ty.F32, Ty.Void, 0, 0x0, 0x5f, "F32Le", "f32.le", "<="⟩,
  ⟨Ty.I32, Ty.F32, Ty.F32, Ty.Void, 0, 0x0, 0x60, "F32Ge", "f32.ge", ">="⟩,
  ⟨Ty.I32, Ty.F64, Ty.F64, Ty.Void, 0, 0x0, 0x61, "F64Eq", "f64.eq", "=="⟩,
  ⟨Ty.I32, Ty.F64, Ty.F64, Ty.Void, 0, 0x0, 0x62, "F64Ne", "f64.ne", "!="⟩,
  ⟨Ty.I32, Ty.F64, Ty.F64, Ty.Void, 0, 0x0, 0x63, "F64Lt", "f64.lt", "<"⟩,
  ⟨Ty.I32, Ty.F64, Ty.F64, Ty.Void, 0, 0x0, 0x64, "F64Gt", "f64.gt", ">"⟩,
  ⟨Ty.I32, Ty.F64, Ty.F64, Ty.Void, 0, 0x0, 0x65, "F64Le", "f64.le", "<="⟩,
  ⟨Ty.I32, Ty.F64, Ty.F64, Ty.Void, 0, 0x0, 0x66, "F64Ge", "f64.ge", ">="⟩,
  ⟨Ty.I32, Ty.I32, Ty.Void, Ty.Void, 0, 0x0, 0x67, "I32Clz", "i32.clz", "clz"⟩,
  ⟨Ty.I32, Ty.I32, Ty.Void, Ty.Void, 0, 0x0, 0x68, "I32Ctz", "i32.ctz", "ctz"⟩,
  ⟨Ty.I32, Ty.I32, Ty.Void, Ty.Void, 0, 0x0, 0x69, "I32Popcnt", "i32.popcnt", "popcnt"⟩,
  ⟨Ty.I32, Ty.I32, Ty.I32, Ty.Void, 0, 0x0, 0x6a, "I32Add", "i32.add", "+"⟩,
  ⟨Ty.I32, Ty.I32, Ty.I32, Ty.Void, 0, 0x0, 0x6b, "I32Sub", "i32.sub", "-"⟩,
  ⟨Ty.I32, Ty.I32, Ty.I32, Ty.Void, 0, 0x0, 0x6c, "I32Mul", "i32.mul", "*"⟩,
  ⟨Ty.I32, Ty.I32, Ty.I32, Ty.Void, 0, 0x0, 0x6d, "I32DivS", "i32.div_s", "/"⟩,
  ⟨Ty.I32, Ty.I32, Ty.I32, Ty.Void, 0, 0x0, 0x6e, "I32DivU", "i32.div_u", "/"⟩,
  ⟨Ty.I32, Ty.I32, Ty.I32, Ty.Void, 0, 0x0, 0x6f, "I32RemS", "i32.rem_s", "%"⟩,
  ⟨Ty.I32, Ty.I32, Ty.I32, Ty.Void, 0, 0x0, 0x70, "I32RemU", "i32.rem_u", "%"⟩,
  ⟨Ty.I32, Ty.I32, Ty.I32, Ty.Void, 0, 0x0, 0x71, "I32And", "i32.and", "&"⟩,
  ⟨Ty.I32, Ty.I32, Ty.I32, Ty.Void, 0, 0x0, 0x72, "I32Or", "i32.or", "|"⟩,
  ⟨Ty.I32, Ty.I32, Ty.I32, Ty.Void, 0, 0x0, 0x73, "I32Xor", "i32.xor", "^"⟩,
  ⟨Ty.I32, Ty.I32, Ty.I32, Ty.Void, 0, 0x0, 0x74, "I32Shl", "i32.shl", "<<"⟩,
  ⟨Ty.I32, Ty.I32, Ty.I32, Ty.Void, 0, 0x0, 0x75, "I32ShrS", "i32.shr_s", ">>"⟩,
  ⟨Ty.I32, Ty.I32, Ty.I32, Ty.Void, 0, 0x0, 0x76, "I32ShrU", "i32.shr_u", ">>"⟩,
  ⟨Ty.I32, Ty.I32, Ty.I32, Ty.Void, 0, 0x0, 0x77, "I32Rotl", "i32.rotl", "<<"⟩,
  ⟨Ty.I32, Ty.I32, Ty.I32, Ty.Void, 0, 0x0, 0x78, "I32Rotr", "i32.rotr", ">>"⟩,
  ⟨Ty.I64, Ty.I64, Ty.Void, Ty.Void, 0, 0x0, 0x79, "I64Clz", "i64.clz", "clz"⟩,
  ⟨Ty.I64, Ty.I64, Ty.Void, Ty.Void, 0, 0x0, 0x7a, "I64Ctz", "i64.ctz", "ctz"⟩,
  ⟨Ty.I64, Ty.I64, Ty.Void, Ty.Void, 0, 0x0, 0x7b, "I64Popcnt", "i64.popcnt", "popcnt"⟩,
  ⟨Ty.I64, Ty.I64, Ty.I64, Ty.Void, 0, 0x0, 0x7c, "I64Add", "i64.add", "+"⟩,
  ⟨Ty.I64, Ty.I64, Ty.I64, Ty.Void, 0, 0x0, 0x7d, "I64Sub", "i64.sub", "-"⟩,
  ⟨Ty.I64, Ty.I64, Ty.I64, Ty.Void, 0, 0x0, 0x7e, "I64Mul", "i64.mul", "*"⟩,
  ⟨Ty.I64, Ty.I64, Ty.I64, Ty.Void, 0, 0x0, 0x7f, "I64DivS", "i64.div_s", "/"⟩,
  ⟨Ty.I64, Ty.I64, Ty.I64, Ty.Void, 0, 0x0, 0x80, "I64DivU", "i64.div_u", "/"⟩,
  ⟨Ty.I64, Ty.I64, Ty.I64, Ty.Void, 0, 0x0, 0x81, "I64RemS", "i64.rem_s", "%"⟩,
  ⟨Ty.I64, Ty.I64, Ty.I64, Ty.Void, 0, 0x0, 0x82, "I64RemU", "i64.rem_u", "%"⟩,
  ⟨Ty.I64, Ty.I64, Ty.I64, Ty.Void, 0, 0x0, 0x83, "I64And", "i64.and", "&"⟩,
  ⟨Ty.I64, Ty.I64, Ty.I64, Ty.Void, 0, 0x0, 0x84, "I64Or", "i64.or", "|"⟩
]

def opcodeInfosChunk2 : List OpcodeInfo := [
  ⟨Ty.I64, Ty.I64, Ty.I64, Ty.Void, 0, 0x0, 0x85, "I64Xor", "i64.xor", "^"⟩,
  ⟨Ty.I64, Ty.I64, Ty.I64, Ty.Void, 0, 0x0, 0x86, "I64Shl", "i64.shl", "<<"⟩,
  ⟨Ty.I64, Ty.I64, Ty.I64, Ty.Void, 0, 0x0, 0x87, "I64ShrS", "i64.shr_s", ">>"⟩,
  ⟨Ty.I64, Ty.I64, Ty.I64, Ty.Void, 0, 0x0, 0x88, "I64ShrU", "i64.shr_u", ">>"⟩,
  ⟨Ty.I64, Ty.I64, Ty.I64, Ty.Void, 0, 0x0, 0x89, "I64Rotl", "i64.rotl", "<<"⟩,
  ⟨Ty.I64, Ty.I64, Ty.I64, Ty.Void, 0, 0x0, 0x8a, "I64Rotr", "i64.rotr", ">>"⟩,
  ⟨Ty.F32, Ty.F32, Ty.F32, Ty.Void, 0, 0x0, 0x8b, "F32Abs", "f32.abs", "abs"⟩,
  ⟨Ty.F32, Ty.F32, Ty.F32, Ty.Void, 0, 0x0, 0x8c, "F32Neg", "f32.neg", "-"⟩,
  ⟨Ty.F32, Ty.F32, Ty.F32, Ty.Void, 0, 0x0, 0x8d, "F32Ceil", "f32.ceil", "ceil"⟩,
  ⟨Ty.F32, Ty.F32, Ty.F32, Ty.Void, 0, 0x0, 0x8e, "F32Floor", "f32.floor", "floor"⟩,
  ⟨Ty.F32, Ty.F32, Ty.F32, Ty.Void, 0, 0x0, 0x8f, "F32Trunc", "f32.trunc", "trunc"⟩,
  ⟨Ty.F32, Ty.F32, Ty.F32, Ty.Void, 0, 0x0, 0x90, "F32Nearest", "f32.nearest", "nearest"⟩,
  ⟨Ty.F32, Ty.F32, Ty.F32, Ty.Void, 0, 0x0, 0x91, "F32Sqrt", "f32.sqrt", "sqrt"⟩,
  ⟨Ty.F32, Ty.F32, Ty.F32, Ty.Void, 0, 0x0, 0x92, "F32Add", "f32.add", "+"⟩,
  ⟨Ty.F32, Ty.F32, Ty.F32, Ty.Void, 0, 0x0, 0x93, "F32Sub", "f32.sub", "-"⟩,
  ⟨Ty.F32, Ty.F32, Ty.F32, Ty.Void, 0, 0x0, 0x94, "F32Mul", "f32.mul", "*"⟩,
  ⟨Ty.F32, Ty.F32, Ty.F32, Ty.Void, 0, 0x0, 0x95, "F32Div", "f32.div", "/"⟩,
  ⟨Ty.F32, Ty.F32, Ty.F32, Ty.Void, 0, 0x0, 0x96, "F32Min", "f32.min", "min"⟩,
  ⟨Ty.F32, Ty.F32, Ty.F32, Ty.Void, 0, 0x0, 0x97, "F32Max", "f32.max", "max"⟩,
  ⟨Ty.F32, Ty.F32, Ty.F32, Ty.Void, 0, 0x0, 0x98, "F32Copysign", "f32.copysign", "copysign"⟩,
  ⟨Ty.F64, Ty.F64, Ty.F64, Ty.Void, 0, 0x0, 0x99, "F64Abs", "f64.abs", "abs"⟩,
  ⟨Ty.F64, Ty.F64, Ty.F64, Ty.Void, 0, 0x0, 0x9a, "F64Neg", "f64.neg", "-"⟩,
  ⟨Ty.F64, Ty.F64, Ty.F64, Ty.Void, 0, 0x0, 0x9b, "F64Ceil", "f64.ceil", "ceil"⟩,
  ⟨Ty.F64, Ty.F64, Ty.F64, Ty.Void, 0, 0x0, 0x9c, "F64Floor", "f64.floor", "floor"⟩,
  ⟨Ty.F64, Ty.F64, Ty.F64, Ty.Void, 0, 0x0, 0x9d, "F64Trunc", "f64.trunc", "trunc"⟩,
  ⟨Ty.F64, Ty.F64, Ty.F64, Ty.Void, 0, 0x0, 0x9e, "F64Nearest", "f64.nearest", "nearest"⟩,
  ⟨Ty.F64, Ty.F64, Ty.F64, Ty.Void, 0, 0x0, 0x9f, "F64Sqrt", "f64.sqrt", "sqrt"⟩,
  ⟨Ty.F64, Ty.F64, Ty.F64, Ty.Void, 0, 0x0, 0xa0, "F64Add", "f64.add", "+"⟩,
  ⟨Ty.F64, Ty.F64, Ty.F64, Ty.Void, 0, 0x0, 0xa1, "F64Sub", "f64.sub", "-"⟩,
  ⟨Ty.F64, Ty.F64, Ty.F64, Ty.Void, 0, 0x0, 0xa2, "F64Mul", "f64.mul", "*"⟩,
  ⟨Ty.F64, Ty.F64, Ty.F64, Ty.Void, 0, 0x0, 0xa3, "F64Div", "f64.div", "/"⟩,
  ⟨Ty.F64, Ty.F64, Ty.F64, Ty.Void, 0, 0x0, 0xa4, "F64Min", "f64.min", "min"⟩,
  ⟨Ty.F64, Ty.F64, Ty.F64, Ty.Void, 0, 0x0, 0xa5, "F64Max", "f64.max", "max"⟩,
  ⟨Ty.F64, Ty.F64, Ty.F64, Ty.Void, 0, 0x0, 0xa6, "F64Copysign", "f64.copysign", "copysign"⟩,
  ⟨Ty.I32, Ty.I64, Ty.Void, Ty.Void, 0, 0x0, 0xa7, "I32WrapI64", "i32.wrap_i64", ""⟩,
  ⟨Ty.I32, Ty.F32, Ty.Void, Ty.Void, 0, 0x0, 0xa8, "I32TruncF32S", "i32.trunc_f32_s", ""⟩,
  ⟨Ty.I32, Ty.F32, Ty.Void, Ty.Void, 0, 0x0, 0xa9, "I32TruncF32U", "i32.trunc_f32_u", ""⟩,
  ⟨Ty.I32, Ty.F64, Ty.Void, Ty.Void, 0, 0x0, 0xaa, "I32TruncF64S", "i32.trunc_f64_s", ""⟩,
  ⟨Ty.I32, Ty.F64, Ty.Void, Ty.Void, 0, 0x0, 0xab, "I32TruncF64U", "i32.trunc_f64_u", ""⟩,
  ⟨Ty.I64, Ty.I32, Ty.Void, Ty.Void, 0, 0x0, 0xac, "I64ExtendI32S", "i64.extend_i32_s", ""⟩,
  ⟨Ty.I64, Ty.I32, Ty.Void, Ty.Void, 0, 0x0, 0xad, "I64ExtendI32U", "i64.extend_i32_u", ""⟩,
  ⟨Ty.I64, Ty.F32, Ty.Void, Ty.Void, 0, 0x0, 0xae, "I64TruncF32S", "i64.trunc_f32_s", ""⟩,
  ⟨Ty.I64, Ty.F32, Ty.Void, Ty.Void, 0, 0x0, 0xaf, "I64TruncF32U", "i64.trunc_f32_u", ""⟩,
  ⟨Ty.I64, Ty.F64, Ty.Void, Ty.Void, 0, 0x0, 0xb0, "I64TruncF64S", "i64.trunc_f64_s", ""⟩,
  ⟨Ty.I64, Ty.F64, Ty.Void, Ty.Void, 0, 0x0, 0xb1, "I64TruncF64U", "i64.trunc_f64_u", ""⟩,
  ⟨Ty.F32, Ty.I32, Ty.Void, Ty.Void, 0, 0x0, 0xb2, "F32ConvertI32S", "f32.convert_i32_s", ""⟩,
  ⟨Ty.F32, Ty.I32, Ty.Void, Ty.Void, 0, 0x0, 0xb3, "F32ConvertI32U", "f32.convert_i32_u", ""⟩,
  ⟨Ty.F32, Ty.I64, Ty.Void, Ty.Void, 0, 0x0, 0xb4, "F32ConvertI64S", "f32.convert_i64_s", ""⟩,
  ⟨Ty.F32, Ty.I64, Ty.Void, Ty.Void, 0, 0x0, 0xb5, "F32ConvertI64U", "f32.convert_i64_u", ""⟩,
  ⟨Ty.F32, Ty.F64, Ty.Void, Ty.Void, 0, 0x0, 0xb6, "F32DemoteF64", "f32.demote_f64", ""⟩,
  ⟨Ty.F64, Ty.I32, Ty.Void, Ty.Void, 0, 0x0, 0xb7, "F64ConvertI32S", "f64.convert_i32_s", ""⟩,
  ⟨Ty.F64, Ty.I32, Ty.Void, Ty.Void, 0, 0x0, 0xb8, "F64ConvertI32U", "f64.convert_i32_u", ""⟩,
  ⟨Ty.F64, Ty.I64, Ty.Void, Ty.Void, 0, 0x0, 0xb9, "F64ConvertI64S", "f64.convert_i64_s", ""⟩,
  ⟨Ty.F64, Ty.I64, Ty.Void, Ty.Void, 0, 0x0, 0xba, "F64ConvertI64U", "f64.convert_i64_u", ""⟩,
  ⟨Ty.F64, Ty.F32, Ty.Void, Ty.Void, 0, 0x0, 0xbb, "F64PromoteF32", "f64.promote_f32", ""⟩,
  ⟨Ty.I32, Ty.F32, Ty.Void, Ty.Void, 0, 0x0, 0xbc, "I32ReinterpretF32", "i32.reinterpret_f32", ""⟩,
  ⟨Ty.I64, Ty.F64, Ty.Void, Ty.Void, 0, 0x0, 0xbd, "I64ReinterpretF64", "i64.reinterpret_f64", ""⟩,
  ⟨Ty.F32, Ty.I32, Ty.Void, Ty.Void, 0, 0x0, 0xbe, "F32ReinterpretI32", "f32.reinterpret_i32", ""⟩,
  ⟨Ty.F64, Ty.I64, Ty.Void, Ty.Void, 0, 0x0, 0xbf, "F64ReinterpretI64", "f64.reinterpret_i64", ""⟩,
  ⟨Ty.I32, Ty.I32, Ty.Void, Ty.Void, 0, 0x0, 0xc0, "I32Extend8S", "i32.extend8_s", ""⟩
]

def opcodeInfosChunk3 : List OpcodeInfo := [
  ⟨Ty.I32, Ty.I32, Ty.Void, Ty.Void, 0, 0x0, 0xc1, "I32Extend16S", "i32.extend16_s", ""⟩,
  ⟨Ty.I64, Ty.I64, Ty.Void, Ty.Void, 0, 0x0, 0xc2, "I64Extend8S", "i64.extend8_s", ""⟩,
  ⟨Ty.I64, Ty.I64, Ty.Void, Ty.Void, 0, 0x0, 0xc3, "I64Extend16S", "i64.extend16_s", ""⟩,
  ⟨Ty.I64, Ty.I64, Ty.Void, Ty.Void, 0, 0x0, 0xc4, "I64Extend32S", "i64.extend32_s", ""⟩,
  ⟨Ty.Void, Ty.Void, Ty.Void, Ty.Void, 0, 0x0, 0xe0, "InterpAlloca", "alloca", ""⟩,
  ⟨Ty.Void, Ty.Void, Ty.Void, Ty.Void, 0, 0x0, 0xe1, "InterpBrUnless", "br_unless", ""⟩,
  ⟨Ty.Void, Ty.Void, Ty.Void, Ty.Void, 0, 0x0, 0xe2, "InterpCallHost", "call_host", ""⟩,
  ⟨Ty.Void, Ty.Void, Ty.Void, Ty.Void, 0, 0x0, 0xe3, "InterpData", "data", ""⟩,
  ⟨Ty.Void, Ty.Void, Ty.Void, Ty.Void, 0, 0x0, 0xe4, "InterpDropKeep", "drop_keep", ""⟩,
  ⟨Ty.I32, Ty.F32, Ty.Void, Ty.Void, 0, 0xfc, 0x0, "I32TruncSatF32S", "i32.trunc_sat_f32_s", ""⟩,
  ⟨Ty.I32, Ty.F32, Ty.Void, Ty.Void, 0, 0xfc, 0x1, "I32TruncSatF32U", "i32.trunc_sat_f32_u", ""⟩,
  ⟨Ty.I32, Ty.F64, Ty.Void, Ty.Void, 0, 0xfc, 0x2, "I32TruncSatF64S", "i32.trunc_sat_f64_s", ""⟩,
  ⟨Ty.I32, Ty.F64, Ty.Void, Ty.Void, 0, 0xfc, 0x3, "I32TruncSatF64U", "i32.trunc_sat_f64_u", ""⟩,
  ⟨Ty.I64, Ty.F32, Ty.Void, Ty.Void, 0, 0xfc, 0x4, "I64TruncSatF32S", "i64.trunc_sat_f32_s", ""⟩,
  ⟨Ty.I64, Ty.F32, Ty.Void, Ty.Void, 0, 0xfc, 0x5, "I64TruncSatF32U", "i64.trunc_sat_f32_u", ""⟩,
  ⟨Ty.I64, Ty.F64, Ty.Void, Ty.Void, 0, 0xfc, 0x6, "I64TruncSatF64S", "i64.trunc_sat_f64_s", ""⟩,
  ⟨Ty.I64, Ty.F64, Ty.Void, Ty.Void, 0, 0xfc, 0x7, "I64TruncSatF64U", "i64.trunc_sat_f64_u", ""⟩,
  ⟨Ty.Void, Ty.I32, Ty.I32, Ty.I32, 0, 0xfc, 0x8, "MemoryInit", "memory.init", ""⟩,
  ⟨Ty.Void, Ty.Void, Ty.Void, Ty.Void, 0, 0xfc, 0x9, "DataDrop", "data.drop", ""⟩,
  ⟨Ty.Void, Ty.I32, Ty.I32, Ty.I32, 0, 0xfc, 0xa, "MemoryCopy", "memory.copy", ""⟩,
  ⟨Ty.Void, Ty.I32, Ty.I32, Ty.I32, 0, 0xfc, 0xb, "MemoryFill", "memory.fill", ""⟩,
  ⟨Ty.Void, Ty.I32, Ty.I32, Ty.I32, 0, 0xfc, 0xc, "TableInit", "table.init", ""⟩,
  ⟨Ty.Void, Ty.Void, Ty.Void, Ty.Void, 0, 0xfc, 0xd, "ElemDrop", "elem.drop", ""⟩,
  ⟨Ty.Void, Ty.I32, Ty.I32, Ty.I32, 0, 0xfc, 0xe, "TableCopy", "table.copy", ""⟩,
  ⟨Ty.Void, Ty.Void, Ty.Void, Ty.Void, 0, 0x0, 0x25, "TableGet", "table.get", ""⟩,
  ⟨Ty.Void, Ty.Void, Ty.Void, Ty.Void, 0, 0x0, 0x26, "TableSet", "table.set", ""⟩,
  ⟨Ty.Void, Ty.Void, Ty.Void, Ty.Void, 0, 0xfc, 0xf, "TableGrow", "table.grow", ""⟩,
  ⟨Ty.Void, Ty.Void, Ty.Void, Ty.Void, 0, 0xfc, 0x10, "TableSize", "table.size", ""⟩,
  ⟨Ty.Void, Ty.Void, Ty.Void, Ty.Void, 0, 0x0, 0xd0, "RefNull", "ref.null", ""⟩,
  ⟨Ty.Void, Ty.Void, Ty.Void, Ty.Void, 0, 0x0, 0xd1, "RefIsNull", "ref.is_null", ""⟩,
  ⟨Ty.Void, Ty.Void, Ty.Void, Ty.Void, 0, 0x0, 0xd2, "RefFunc", "ref.func", ""⟩,
  ⟨Ty.V128, Ty.I32, Ty.Void, Ty.Void, 16, 0xfd, 0x0, "V128Load", "v128.load", ""⟩,
  ⟨Ty.Void, Ty.I32, Ty.V128, Ty.Void, 16, 0xfd, 0x1, "V128Store", "v128.store", ""⟩,
  ⟨Ty.V128, Ty.Void, Ty.Void, Ty.Void, 0, 0xfd, 0x2, "V128Const", "v128.const", ""⟩,
  ⟨Ty.V128, Ty.I32, Ty.Void, Ty.Void, 0, 0xfd, 0x4, "I8X16Splat", "i8x16.splat", ""⟩,
  ⟨Ty.I32, Ty.V128, Ty.Void, Ty.Void, 0, 0xfd, 0x5, "I8X16ExtractLaneS", "i8x16.extract_lane_s", ""⟩,
  ⟨Ty.I32, Ty.V128, Ty.Void, Ty.Void, 0, 0xfd, 0x6, "I8X16ExtractLaneU", "i8x16.extract_lane_u", ""⟩,
  ⟨Ty.V128, Ty.V128, Ty.I32, Ty.Void, 0, 0xfd, 0x7, "I8X16ReplaceLane", "i8x16.replace_lane", ""⟩,
  ⟨Ty.V128, Ty.I32, Ty.Void, Ty.Void, 0, 0xfd, 0x8, "I16X8Splat", "i16x8.splat", ""⟩,
  ⟨Ty.I32, Ty.V128, Ty.Void, Ty.Void, 0, 0xfd, 0x9, "I16X8ExtractLaneS", "i16x8.extract_lane_s", ""⟩,
  ⟨Ty.I32, Ty.V128, Ty.Void, Ty.Void, 0, 0xfd, 0xa, "I16X8ExtractLaneU", "i16x8.extract_lane_u", ""⟩,
  ⟨Ty.V128, Ty.V128, Ty.I32, Ty.Void, 0, 0xfd, 0xb, "I16X8ReplaceLane", "i16x8.replace_lane", ""⟩,
  ⟨Ty.V128, Ty.I32, Ty.Void, Ty.Void, 0, 0xfd, 0xc, "I32X4Splat", "i32x4.splat", ""⟩,
  ⟨Ty.I32, Ty.V128, Ty.Void, Ty.Void, 0, 0xfd, 0xd, "I32X4ExtractLane", "i32x4.extract_lane", ""⟩,
  ⟨Ty.V128, Ty.V128, Ty.I32, Ty.Void, 0, 0xfd, 0xe, "I32X4ReplaceLane", "i32x4.replace_lane", ""⟩,
  ⟨Ty.V128, Ty.I64, Ty.Void, Ty.Void, 0, 0xfd, 0xf, "I64X2Splat", "i64x2.splat", ""⟩,
  ⟨Ty.I64, Ty.V128, Ty.Void, Ty.Void, 0, 0xfd, 0x10, "I64X2ExtractLane", "i64x2.extract_lane", ""⟩,
  ⟨Ty.V128, Ty.V128, Ty.I64, Ty.Void, 0, 0xfd, 0x11, "I64X2ReplaceLane", "i64x2.replace_lane", ""⟩,
  ⟨Ty.V128, Ty.F32, Ty.Void, Ty.Void, 0, 0xfd, 0x12, "F32X4Splat", "f32x4.splat", ""⟩,
  ⟨Ty.F32, Ty.V128, Ty.Void, Ty.Void, 0, 0xfd, 0x13, "F32X4ExtractLane", "f32x4.extract_lane", ""⟩,
  ⟨Ty.V128, Ty.V128, Ty.F32, Ty.Void, 0, 0xfd, 0x14, "F32X4ReplaceLane", "f32x4.replace_lane", ""⟩,
  ⟨Ty.V128, Ty.F64, Ty.Void, Ty.Void, 0, 0xfd, 0x15, "F64X2Splat", "f64x2.splat", ""⟩,
  ⟨Ty.F64, Ty.V128, Ty.Void, Ty.Void, 0, 0xfd, 0x16, "F64X2ExtractLane", "f64x2.extract_lane", ""⟩,
  ⟨Ty.V128, Ty.V128, Ty.F64, Ty.Void, 0, 0xfd, 0x17, "F64X2ReplaceLane", "f64x2.replace_lane", ""⟩,
  ⟨Ty.V128, Ty.V128, Ty.V128, Ty.Void, 0, 0xfd, 0x18, "I8X16Eq", "i8x16.eq", ""⟩,
  ⟨Ty.V128, Ty.V128, Ty.V128, Ty.Void, 0, 0xfd, 0x19, "I8X16Ne", "i8x16.ne", ""⟩,
  ⟨Ty.V128, Ty.V128, Ty.V128, Ty.Void, 0, 0xfd, 0x1a, "I8X16LtS", "i8x16.lt_s", ""⟩,
  ⟨Ty.V128, Ty.V128, Ty.V128, Ty.Void, 0, 0xfd, 0x1b, "I8X16LtU", "i8x16.lt_u", ""⟩,
  ⟨Ty.V128, Ty.V128, Ty.V128, Ty.Void, 0, 0xfd, 0x1c, "I8X16GtS", "i8x16.gt_s", ""⟩,
  ⟨Ty.V128, Ty.V128, Ty.V128, Ty.Void, 0, 0xfd, 0x1d, "I8X16GtU", "i8x16.gt_u", ""⟩
]

def opcodeInfosChunk4 : List OpcodeInfo := [
  ⟨Ty.V128, Ty.V128, Ty.V128, Ty.Void, 0, 0xfd, 0x1e, "I8X16LeS", "i8x16.le_s", ""⟩,
  ⟨Ty.V128, Ty.V128, Ty.V128, Ty.Void, 0, 0xfd, 0x1f, "I8X16LeU", "i8x16.le_u", ""⟩,
  ⟨Ty.V128, Ty.V128, Ty.V128, Ty.Void, 0, 0xfd, 0x20, "I8X16GeS", "i8x16.ge_s", ""⟩,
  ⟨Ty.V128, Ty.V128, Ty.V128, Ty.Void, 0, 0xfd, 0x21, "I8X16GeU", "i8x16.ge_u", ""⟩,
  ⟨Ty.V128, Ty.V128, Ty.V128, Ty.Void, 0, 0xfd, 0x22, "I16X8Eq", "i16x8.eq", ""⟩,
  ⟨Ty.V128, Ty.V128, Ty.V128, Ty.Void, 0, 0xfd, 0x23, "I16X8Ne", "i16x8.ne", ""⟩,
  ⟨Ty.V128, Ty.V128, Ty.V128, Ty.Void, 0, 0xfd, 0x24, "I16X8LtS", "i16x8.lt_s", ""⟩,
  ⟨Ty.V128, Ty.V128, Ty.V128, Ty.Void, 0, 0xfd, 0x25, "I16X8LtU", "i16x8.lt_u", ""⟩,
  ⟨Ty.V128, Ty.V128, Ty.V128, Ty.Void, 0, 0xfd, 0x26, "I16X8GtS", "i16x8.gt_s", ""⟩,
  ⟨Ty.V128, Ty.V128, Ty.V128, Ty.Void, 0, 0xfd, 0x27, "I16X8GtU", "i16x8.gt_u", ""⟩,
  ⟨Ty.V128, Ty.V128, Ty.V128, Ty.Void, 0, 0xfd, 0x28, "I16X8LeS", "i16x8.le_s", ""⟩,
  ⟨Ty.V128, Ty.V128, Ty.V128, Ty.Void, 0, 0xfd, 0x29, "I16X8LeU", "i16x8.le_u", ""⟩,
  ⟨Ty.V128, Ty.V128, Ty.V128, Ty.Void, 0, 0xfd, 0x2a, "I16X8GeS", "i16x8.ge_s", ""⟩,
  ⟨Ty.V128, Ty.V128, Ty.V128, Ty.Void, 0, 0xfd, 0x2b, "I16X8GeU", "i16x8.ge_u", ""⟩,
  ⟨Ty.V128, Ty.V128, Ty.V128, Ty.Void, 0, 0xfd, 0x2c, "I32X4Eq", "i32x4.eq", ""⟩,
  ⟨Ty.V128, Ty.V128, Ty.V128, Ty.Void, 0, 0xfd, 0x2d, "I32X4Ne", "i32x4.ne", ""⟩,
  ⟨Ty.V128, Ty.V128, Ty.V128, Ty.Void, 0, 0xfd, 0x2e, "I32X4LtS", "i32x4.lt_s", ""⟩,
  ⟨Ty.V128, Ty.V128, Ty.V128, Ty.Void, 0, 0xfd, 0x2f, "I32X4LtU", "i32x4.lt_u", ""⟩,
  ⟨Ty.V128, Ty.V128, Ty.V128, Ty.Void, 0, 0xfd, 0x30, "I32X4GtS", "i32x4.gt_s", ""⟩,
  ⟨Ty.V128, Ty.V128, Ty.V128, Ty.Void, 0, 0xfd, 0x31, "I32X4GtU", "i32x4.gt_u", ""⟩,
  ⟨Ty.V128, Ty.V128, Ty.V128, Ty.Void, 0, 0xfd, 0x32, "I32X4LeS", "i32x4.le_s", ""⟩,
  ⟨Ty.V128, Ty.V128, Ty.V128, Ty.Void, 0, 0xfd, 0x33, "I32X4LeU", "i32x4.le_u", ""⟩,
  ⟨Ty.V128, Ty.V128, Ty.V128, Ty.Void, 0, 0xfd, 0x34, "I32X4GeS", "i32x4.ge_s", ""⟩,
  ⟨Ty.V128, Ty.V128, Ty.V128, Ty.Void, 0, 0xfd, 0x35, "I32X4GeU", "i32x4.ge_u", ""⟩,
  ⟨Ty.V128, Ty.V128, Ty.V128, Ty.Void, 0, 0xfd, 0x40, "F32X4Eq", "f32x4.eq", ""⟩,
  ⟨Ty.V128, Ty.V128, Ty.V128, Ty.Void, 0, 0xfd, 0x41, "F32X4Ne", "f32x4.ne", ""⟩,
  ⟨Ty.V128, Ty.V128, Ty.V128, Ty.Void, 0, 0xfd, 0x42, "F32X4Lt", "f32x4.lt", ""⟩,
  ⟨Ty.V128, Ty.V128, Ty.V128, Ty.Void, 0, 0xfd, 0x43, "F32X4Gt", "f32x4.gt", ""⟩,
  ⟨Ty.V128, Ty.V128, Ty.V128, Ty.Void, 0, 0xfd, 0x44, "F32X4Le", "f32x4.le", ""⟩,
  ⟨Ty.V128, Ty.V128, Ty.V128, Ty.Void, 0, 0xfd, 0x45, "F32X4Ge", "f32x4.ge", ""⟩,
  ⟨Ty.V128, Ty.V128, Ty.V128, Ty.Void, 0, 0xfd, 0x46, "F64X2Eq", "f64x2.eq", ""⟩,
  ⟨Ty.V128, Ty.V128, Ty.V128, Ty.Void, 0, 0xfd, 0x47, "F64X2Ne", "f64x2.ne", ""⟩,
  ⟨Ty.V128, Ty.V128, Ty.V128, Ty.Void, 0, 0xfd, 0x48, "F64X2Lt", "f64x2.lt", ""⟩,
  ⟨Ty.V128, Ty.V128, Ty.V128, Ty.Void, 0, 0xfd, 0x49, "F64X2Gt", "f64x2.gt", ""⟩,
  ⟨Ty.V128, Ty.V128, Ty.V128, Ty.Void, 0, 0xfd, 0x4a, "F64X2Le", "f64x2.le", ""⟩,
  ⟨Ty.V128, Ty.V128, Ty.V128, Ty.Void, 0, 0xfd, 0x4b, "F64X2Ge", "f64x2.ge", ""⟩,
  ⟨Ty.V128, Ty.V128, Ty.Void, Ty.Void, 0, 0xfd, 0x4c, "V128Not", "v128.not", ""⟩,
  ⟨Ty.V128, Ty.V128, Ty.V128, Ty.Void, 0, 0xfd, 0x4d, "V128And", "v128.and", ""⟩,
  ⟨Ty.V128, Ty.V128, Ty.V128, Ty.Void, 0, 0xfd, 0x4e, "V128Or", "v128.or", ""⟩,
  ⟨Ty.V128, Ty.V128, Ty.V128, Ty.Void, 0, 0xfd, 0x4f, "V128Xor", "v128.xor", ""⟩,
  ⟨Ty.V128, Ty.V128, Ty.V128, Ty.V128, 0, 0xfd, 0x50, "V128BitSelect", "v128.bitselect", ""⟩,
  ⟨Ty.V128, Ty.V128, Ty.Void, Ty.Void, 0, 0xfd, 0x51, "I8X16Neg", "i8x16.neg", ""⟩,
  ⟨Ty.I32, Ty.V128, Ty.Void, Ty.Void, 0, 0xfd, 0x52, "I8X16AnyTrue", "i8x16.any_true", ""⟩,
  ⟨Ty.I32, Ty.V128, Ty.Void, Ty.Void, 0, 0xfd, 0x53, "I8X16AllTrue", "i8x16.all_true", ""⟩,
  ⟨Ty.V128, Ty.V128, Ty.I32, Ty.Void, 0, 0xfd, 0x54, "I8X16Shl", "i8x16.shl", ""⟩,
  ⟨Ty.V128, Ty.V128, Ty.I32, Ty.Void, 0, 0xfd, 0x55, "I8X16ShrS", "i8x16.shr_s", ""⟩,
  ⟨Ty.V128, Ty.V128, Ty.I32, Ty.Void, 0, 0xfd, 0x56, "I8X16ShrU", "i8x16.shr_u", ""⟩,
  ⟨Ty.V128, Ty.V128, Ty.V128, Ty.Void, 0, 0xfd, 0x57, "I8X16Add", "i8x16.add", ""⟩,
  ⟨Ty.V128, Ty.V128, Ty.V128, Ty.Void, 0, 0xfd, 0x58, "I8X16AddSaturateS", "i8x16.add_saturate_s", ""⟩,
  ⟨Ty.V128, Ty.V128, Ty.V128, Ty.Void, 0, 0xfd, 0x59, "I8X16AddSaturateU", "i8x16.add_saturate_u", ""⟩,
  ⟨Ty.V128, Ty.V128, Ty.V128, Ty.Void, 0, 0xfd, 0x5a, "I8X16Sub", "i8x16.sub", ""⟩,
  ⟨Ty.V128, Ty.V128, Ty.V128, Ty.Void, 0, 0xfd, 0x5b, "I8X16SubSaturateS", "i8x16.sub_saturate_s", ""⟩,
  ⟨Ty.V128, Ty.V128, Ty.V128, Ty.Void, 0, 0xfd, 0x5c, "I8X16SubSaturateU", "i8x16.sub_saturate_u", ""⟩,
  ⟨Ty.V128, Ty.V128, Ty.V128, Ty.Void, 0, 0xfd, 0x5d, "I8X16Mul", "i8x16.mul", ""⟩,
  ⟨Ty.V128, Ty.V128, Ty.Void, Ty.Void, 0, 0xfd, 0x62, "I16X8Neg", "i16x8.neg", ""⟩,
  ⟨Ty.I32, Ty.V128, Ty.Void, Ty.Void, 0, 0xfd, 0x63, "I16X8AnyTrue", "i16x8.any_true", ""⟩,
  ⟨Ty.I32, Ty.V128, Ty.Void, Ty.Void, 0, 0xfd, 0x64, "I16X8AllTrue", "i16x8.all_true", ""⟩,
  ⟨Ty.V128, Ty.V128, Ty.I32, Ty.Void, 0, 0xfd, 0x65, "I16X8Shl", "i16x8.shl", ""⟩,
  ⟨Ty.V128, Ty.V128, Ty.I32, Ty.Void, 0, 0xfd, 0x66, "I16X8ShrS", "i16x8.shr_s", ""⟩,
  ⟨Ty.V128, Ty.V128, Ty.I32, Ty.Void, 0, 0xfd, 0x67, "I16X8ShrU", "i16x8.shr_u", ""⟩
]

def opcodeInfosChunk5 : List OpcodeInfo := [
  ⟨Ty.V128, Ty.V128, Ty.V128, Ty.Void, 0, 0xfd, 0x68, "I16X8Add", "i16x8.add", ""⟩,
  ⟨Ty.V128, Ty.V128, Ty.V128, Ty.Void, 0, 0xfd, 0x69, "I16X8AddSaturateS", "i16x8.add_saturate_s", ""⟩,
  ⟨Ty.V128, Ty.V128, Ty.V128, Ty.Void, 0, 0xfd, 0x6a, "I16X8AddSaturateU", "i16x8.add_saturate_u", ""⟩,
  ⟨Ty.V128, Ty.V128, Ty.V128, Ty.Void, 0, 0xfd, 0x6b, "I16X8Sub", "i16x8.sub", ""⟩,
  ⟨Ty.V128, Ty.V128, Ty.V128, Ty.Void, 0, 0xfd, 0x6c, "I16X8SubSaturateS", "i16x8.sub_saturate_s", ""⟩,
  ⟨Ty.V128, Ty.V128, Ty.V128, Ty.Void, 0, 0xfd, 0x6d, "I16X8SubSaturateU", "i16x8.sub_saturate_u", ""⟩,
  ⟨Ty.V128, Ty.V128, Ty.V128, Ty.Void, 0, 0xfd, 0x6e, "I16X8Mul", "i16x8.mul", ""⟩,
  ⟨Ty.V128, Ty.V128, Ty.Void, Ty.Void, 0, 0xfd, 0x73, "I32X4Neg", "i32x4.neg", ""⟩,
  ⟨Ty.I32, Ty.V128, Ty.Void, Ty.Void, 0, 0xfd, 0x74, "I32X4AnyTrue", "i32x4.any_true", ""⟩,
  ⟨Ty.I32, Ty.V128, Ty.Void, Ty.Void, 0, 0xfd, 0x75, "I32X4AllTrue", "i32x4.all_true", ""⟩,
  ⟨Ty.V128, Ty.V128, Ty.I32, Ty.Void, 0, 0xfd, 0x76, "I32X4Shl", "i32x4.shl", ""⟩,
  ⟨Ty.V128, Ty.V128, Ty.I32, Ty.Void, 0, 0xfd, 0x77, "I32X4ShrS", "i32x4.shr_s", ""⟩,
  ⟨Ty.V128, Ty.V128, Ty.I32, Ty.Void, 0, 0xfd, 0x78, "I32X4ShrU", "i32x4.shr_u", ""⟩,
  ⟨Ty.V128, Ty.V128, Ty.V128, Ty.Void, 0, 0xfd, 0x79, "I32X4Add", "i32x4.add", ""⟩,
  ⟨Ty.V128, Ty.V128, Ty.V128, Ty.Void, 0, 0xfd, 0x7c, "I32X4Sub", "i32x4.sub", ""⟩,
  ⟨Ty.V128, Ty.V128, Ty.V128, Ty.Void, 0, 0xfd, 0x7f, "I32X4Mul", "i32x4.mul", ""⟩,
  ⟨Ty.V128, Ty.V128, Ty.Void, Ty.Void, 0, 0xfd, 0x84, "I64X2Neg", "i64x2.neg", ""⟩,
  ⟨Ty.I32, Ty.V128, Ty.Void, Ty.Void, 0, 0xfd, 0x85, "I64X2AnyTrue", "i64x2.any_true", ""⟩,
  ⟨Ty.I32, Ty.V128, Ty.Void, Ty.Void, 0, 0xfd, 0x86, "I64X2AllTrue", "i64x2.all_true", ""⟩,
  ⟨Ty.V128, Ty.V128, Ty.I32, Ty.Void, 0, 0xfd, 0x87, "I64X2Shl", "i64x2.shl", ""⟩,
  ⟨Ty.V128, Ty.V128, Ty.I32, Ty.Void, 0, 0xfd, 0x88, "I64X2ShrS", "i64x2.shr_s", ""⟩,
  ⟨Ty.V128, Ty.V128, Ty.I32, Ty.Void, 0, 0xfd, 0x89, "I64X2ShrU", "i64x2.shr_u", ""⟩,
  ⟨Ty.V128, Ty.V128, Ty.V128, Ty.Void, 0, 0xfd, 0x8a, "I64X2Add", "i64x2.add", ""⟩,
  ⟨Ty.V128, Ty.V128, Ty.V128, Ty.Void, 0, 0xfd, 0x8d, "I64X2Sub", "i64x2.sub", ""⟩,
  ⟨Ty.V128, Ty.V128, Ty.Void, Ty.Void, 0, 0xfd, 0x95, "F32X4Abs", "f32x4.abs", ""⟩,
  ⟨Ty.V128, Ty.V128, Ty.Void, Ty.Void, 0, 0xfd, 0x96, "F32X4Neg", "f32x4.neg", ""⟩,
  ⟨Ty.V128, Ty.V128, Ty.Void, Ty.Void, 0, 0xfd, 0x97, "F32X4Sqrt", "f32x4.sqrt", ""⟩,
  ⟨Ty.V128, Ty.V128, Ty.V128, Ty.Void, 0, 0xfd, 0x9a, "F32X4Add", "f32x4.add", ""⟩,
  ⟨Ty.V128, Ty.V128, Ty.V128, Ty.Void, 0, 0xfd, 0x9b, "F32X4Sub", "f32x4.sub", ""⟩,
  ⟨Ty.V128, Ty.V128, Ty.V128, Ty.Void, 0, 0xfd, 0x9c, "F32X4Mul", "f32x4.mul", ""⟩,
  ⟨Ty.V128, Ty.V128, Ty.V128, Ty.Void, 0, 0xfd, 0x9d, "F32X4Div", "f32x4.div", ""⟩,
  ⟨Ty.V128, Ty.V128, Ty.V128, Ty.Void, 0, 0xfd, 0x9e, "F32X4Min", "f32x4.min", ""⟩,
  ⟨Ty.V128, Ty.V128, Ty.V128, Ty.Void, 0, 0xfd, 0x9f, "F32X4Max", "f32x4.max", ""⟩,
  ⟨Ty.V128, Ty.V128, Ty.Void, Ty.Void, 0, 0xfd, 0xa0, "F64X2Abs", "f64x2.abs", ""⟩,
  ⟨Ty.V128, Ty.V128, Ty.Void, Ty.Void, 0, 0xfd, 0xa1, "F64X2Neg", "f64x2.neg", ""⟩,
  ⟨Ty.V128, Ty.V128, Ty.Void, Ty.Void, 0, 0xfd, 0xa2, "F64X2Sqrt", "f64x2.sqrt", ""⟩,
  ⟨Ty.V128, Ty.V128, Ty.V128, Ty.Void, 0, 0xfd, 0xa5, "F64X2Add", "f64x2.add", ""⟩,
  ⟨Ty.V128, Ty.V128, Ty.V128, Ty.Void, 0, 0xfd, 0xa6, "F64X2Sub", "f64x2.sub", ""⟩,
  ⟨Ty.V128, Ty.V128, Ty.V128, Ty.Void, 0, 0xfd, 0xa7, "F64X2Mul", "f64x2.mul", ""⟩,
  ⟨Ty.V128, Ty.V128, Ty.V128, Ty.Void, 0, 0xfd, 0xa8, "F64X2Div", "f64x2.div", ""⟩,
  ⟨Ty.V128, Ty.V128, Ty.V128, Ty.Void, 0, 0xfd, 0xa9, "F64X2Min", "f64x2.min", ""⟩,
  ⟨Ty.V128, Ty.V128, Ty.V128, Ty.Void, 0, 0xfd, 0xaa, "F64X2Max", "f64x2.max", ""⟩,
  ⟨Ty.V128, Ty.V128, Ty.Void, Ty.Void, 0, 0xfd, 0xab, "I32X4TruncSatF32X4S", "i32x4.trunc_sat_f32x4_s", ""⟩,
  ⟨Ty.V128, Ty.V128, Ty.Void, Ty.Void, 0, 0xfd, 0xac, "I32X4TruncSatF32X4U", "i32x4.trunc_sat_f32x4_u", ""⟩,
  ⟨Ty.V128, Ty.V128, Ty.Void, Ty.Void, 0, 0xfd, 0xad, "I64X2TruncSatF64X2S", "i64x2.trunc_sat_f64x2_s", ""⟩,
  ⟨Ty.V128, Ty.V128, Ty.Void, Ty.Void, 0, 0xfd, 0xae, "I64X2TruncSatF64X2U", "i64x2.trunc_sat_f64x2_u", ""⟩,
  ⟨Ty.V128, Ty.V128, Ty.Void, Ty.Void, 0, 0xfd, 0xaf, "F32X4ConvertI32X4S", "f32x4.convert_i32x4_s", ""⟩,
  ⟨Ty.V128, Ty.V128, Ty.Void, Ty.Void, 0, 0xfd, 0xb0, "F32X4ConvertI32X4U", "f32x4.convert_i32x4_u", ""⟩,
  ⟨Ty.V128, Ty.V128, Ty.Void, Ty.Void, 0, 0xfd, 0xb1, "F64X2ConvertI64X2S", "f64x2.convert_i64x2_s", ""⟩,
  ⟨Ty.V128, Ty.V128, Ty.Void, Ty.Void, 0, 0xfd, 0xb2, "F64X2ConvertI64X2U", "f64x2.convert_i64x2_u", ""⟩,
  ⟨Ty.V128, Ty.V128, Ty.V128, Ty.Void, 0, 0xfd, 0xc0, "V8X16Swizzle", "v8x16.swizzle", ""⟩,
  ⟨Ty.V128, Ty.V128, Ty.V128, Ty.Void, 0, 0xfd, 0xc1, "V8X16Shuffle", "v8x16.shuffle", ""⟩,
  ⟨Ty.V128, Ty.I32, Ty.Void, Ty.Void, 1, 0xfd, 0xc2, "I8X16LoadSplat", "i8x16.load_splat", ""⟩,
  ⟨Ty.V128, Ty.I32, Ty.Void, Ty.Void, 2, 0xfd, 0xc3, "I16X8LoadSplat", "i16x8.load_splat", ""⟩,
  ⟨Ty.V128, Ty.I32, Ty.Void, Ty.Void, 4, 0xfd, 0xc4, "I32X4LoadSplat", "i32x4.load_splat", ""⟩,
  ⟨Ty.V128, Ty.I32, Ty.Void, Ty.Void, 8, 0xfd, 0xc5, "I64X2LoadSplat", "i64x2.load_splat", ""⟩,
  ⟨Ty.I32, Ty.I32, Ty.I32, Ty.Void, 4, 0xfe, 0x0, "AtomicNotify", "atomic.notify", ""⟩,
  ⟨Ty.I32, Ty.I32, Ty.I32, Ty.I64, 4, 0xfe, 0x1, "I32AtomicWait", "i32.atomic.wait", ""⟩,
  ⟨Ty.I32, Ty.I32, Ty.I64, Ty.I64, 8, 0xfe, 0x2, "I64AtomicWait", "i64.atomic.wait", ""⟩,
  ⟨Ty.I32, Ty.I32, Ty.Void, Ty.Void, 4, 0xfe, 0x10, "I32AtomicLoad", "i32.atomic.load", ""⟩
]

def opcodeInfosChunk6 : List OpcodeInfo := [
  ⟨Ty.I64, Ty.I32, Ty.Void, Ty.Void, 8, 0xfe, 0x11, "I64AtomicLoad", "i64.atomic.load", ""⟩,
  ⟨Ty.I32, Ty.I32, Ty.Void, Ty.Void, 1, 0xfe, 0x12, "I32AtomicLoad8U", "i32.atomic.load8_u", ""⟩,
  ⟨Ty.I32, Ty.I32, Ty.Void, Ty.Void, 2, 0xfe, 0x13, "I32AtomicLoad16U", "i32.atomic.load16_u", ""⟩,
  ⟨Ty.I64, Ty.I32, Ty.Void, Ty.Void, 1, 0xfe, 0x14, "I64AtomicLoad8U", "i64.atomic.load8_u", ""⟩,
  ⟨Ty.I64, Ty.I32, Ty.Void, Ty.Void, 2, 0xfe, 0x15, "I64AtomicLoad16U", "i64.atomic.load16_u", ""⟩,
  ⟨Ty.I64, Ty.I32, Ty.Void, Ty.Void, 4, 0xfe, 0x16, "I64AtomicLoad32U", "i64.atomic.load32_u", ""⟩,
  ⟨Ty.Void, Ty.I32, Ty.I32, Ty.Void, 4, 0xfe, 0x17, "I32AtomicStore", "i32.atomic.store", ""⟩,
  ⟨Ty.Void, Ty.I32, Ty.I64, Ty.Void, 8, 0xfe, 0x18, "I64AtomicStore", "i64.atomic.store", ""⟩,
  ⟨Ty.Void, Ty.I32, Ty.I32, Ty.Void, 1, 0xfe, 0x19, "I32AtomicStore8", "i32.atomic.store8", ""⟩,
  ⟨Ty.Void, Ty.I32, Ty.I32, Ty.Void, 2, 0xfe, 0x1a, "I32AtomicStore16", "i32.atomic.store16", ""⟩,
  ⟨Ty.Void, Ty.I32, Ty.I64, Ty.Void, 1, 0xfe, 0x1b, "I64AtomicStore8", "i64.atomic.store8", ""⟩,
  ⟨Ty.Void, Ty.I32, Ty.I64, Ty.Void, 2, 0xfe, 0x1c, "I64AtomicStore16", "i64.atomic.store16", ""⟩,
  ⟨Ty.Void, Ty.I32, Ty.I64, Ty.Void, 4, 0xfe, 0x1d, "I64AtomicStore32", "i64.atomic.store32", ""⟩,
  ⟨Ty.I32, Ty.I32, Ty.I32, Ty.Void, 4, 0xfe, 0x1e, "I32AtomicRmwAdd", "i32.atomic.rmw.add", ""⟩,
  ⟨Ty.I64, Ty.I32, Ty.I64, Ty.Void, 8, 0xfe, 0x1f, "I64AtomicRmwAdd", "i64.atomic.rmw.add", ""⟩,
  ⟨Ty.I32, Ty.I32, Ty.I32, Ty.Void, 1, 0xfe, 0x20, "I32AtomicRmw8AddU", "i32.atomic.rmw8.add_u", ""⟩,
  ⟨Ty.I32, Ty.I32, Ty.I32, Ty.Void, 2, 0xfe, 0x21, "I32AtomicRmw16AddU", "i32.atomic.rmw16.add_u", ""⟩,
  ⟨Ty.I64, Ty.I32, Ty.I64, Ty.Void, 1, 0xfe, 0x22, "I64AtomicRmw8AddU", "i64.atomic.rmw8.add_u", ""⟩,
  ⟨Ty.I64, Ty.I32, Ty.I64, Ty.Void, 2, 0xfe, 0x23, "I64AtomicRmw16AddU", "i64.atomic.rmw16.add_u", ""⟩,
  ⟨Ty.I64, Ty.I32, Ty.I64, Ty.Void, 4, 0xfe, 0x24, "I64AtomicRmw32AddU", "i64.atomic.rmw32.add_u", ""⟩,
  ⟨Ty.I32, Ty.I32, Ty.I32, Ty.Void, 4, 0xfe, 0x25, "I32AtomicRmwSub", "i32.atomic.rmw.sub", ""⟩,
  ⟨Ty.I64, Ty.I32, Ty.I64, Ty.Void, 8, 0xfe, 0x26, "I64AtomicRmwSub", "i64.atomic.rmw.sub", ""⟩,
  ⟨Ty.I32, Ty.I32, Ty.I32, Ty.Void, 1, 0xfe, 0x27, "I32AtomicRmw8SubU", "i32.atomic.rmw8.sub_u", ""⟩,
  ⟨Ty.I32, Ty.I32, Ty.I32, Ty.Void, 2, 0xfe, 0x28, "I32AtomicRmw16SubU", "i32.atomic.rmw16.sub_u", ""⟩,
  ⟨Ty.I64, Ty.I32, Ty.I64, Ty.Void, 1, 0xfe, 0x29, "I64AtomicRmw8SubU", "i64.atomic.rmw8.sub_u", ""⟩,
  ⟨Ty.I64, Ty.I32, Ty.I64, Ty.Void, 2, 0xfe, 0x2a, "I64AtomicRmw16SubU", "i64.atomic.rmw16.sub_u", ""⟩,
  ⟨Ty.I64, Ty.I32, Ty.I64, Ty.Void, 4, 0xfe, 0x2b, "I64AtomicRmw32SubU", "i64.atomic.rmw32.sub_u", ""⟩,
  ⟨Ty.I32, Ty.I32, Ty.I32, Ty.Void, 4, 0xfe, 0x2c, "I32AtomicRmwAnd", "i32.atomic.rmw.and", ""⟩,
  ⟨Ty.I64, Ty.I32, Ty.I64, Ty.Void, 8, 0xfe, 0x2d, "I64AtomicRmwAnd", "i64.atomic.rmw.and", ""⟩,
  ⟨Ty.I32, Ty.I32, Ty.I32, Ty.Void, 1, 0xfe, 0x2e, "I32AtomicRmw8AndU", "i32.atomic.rmw8.and_u", ""⟩,
  ⟨Ty.I32, Ty.I32, Ty.I32, Ty.Void, 2, 0xfe, 0x2f, "I32AtomicRmw16AndU", "i32.atomic.rmw16.and_u", ""⟩,
  ⟨Ty.I64, Ty.I32, Ty.I64, Ty.Void, 1, 0xfe, 0x30, "I64AtomicRmw8AndU", "i64.atomic.rmw8.and_u", ""⟩,
  ⟨Ty.I64, Ty.I32, Ty.I64, Ty.Void, 2, 0xfe, 0x31, "I64AtomicRmw16AndU", "i64.atomic.rmw16.and_u", ""⟩,
  ⟨Ty.I64, Ty.I32, Ty.I64, Ty.Void, 4, 0xfe, 0x32, "I64AtomicRmw32AndU", "i64.atomic.rmw32.and_u", ""⟩,
  ⟨Ty.I32, Ty.I32, Ty.I32, Ty.Void, 4, 0xfe, 0x33, "I32AtomicRmwOr", "i32.atomic.rmw.or", ""⟩,
  ⟨Ty.I64, Ty.I32, Ty.I64, Ty.Void, 8, 0xfe, 0x34, "I64AtomicRmwOr", "i64.atomic.rmw.or", ""⟩,
  ⟨Ty.I32, Ty.I32, Ty.I32, Ty.Void, 1, 0xfe, 0x35, "I32AtomicRmw8OrU", "i32.atomic.rmw8.or_u", ""⟩,
  ⟨Ty.I32, Ty.I32, Ty.I32, Ty.Void, 2, 0xfe, 0x36, "I32AtomicRmw16OrU", "i32.atomic.rmw16.or_u", ""⟩,
  ⟨Ty.I64, Ty.I32, Ty.I64, Ty.Void, 1, 0xfe, 0x37, "I64AtomicRmw8OrU", "i64.atomic.rmw8.or_u", ""⟩,
  ⟨Ty.I64, Ty.I32, Ty.I64, Ty.Void, 2, 0xfe, 0x38, "I64AtomicRmw16OrU", "i64.atomic.rmw16.or_u", ""⟩,
  ⟨Ty.I64, Ty.I32, Ty.I64, Ty.Void, 4, 0xfe, 0x39, "I64AtomicRmw32OrU", "i64.atomic.rmw32.or_u", ""⟩,
  ⟨Ty.I32, Ty.I32, Ty.I32, Ty.Void, 4, 0xfe, 0x3a, "I32AtomicRmwXor", "i32.atomic.rmw.xor", ""⟩,
  ⟨Ty.I64, Ty.I32, Ty.I64, Ty.Void, 8, 0xfe, 0x3b, "I64AtomicRmwXor", "i64.atomic.rmw.xor", ""⟩,
  ⟨Ty.I32, Ty.I32, Ty.I32, Ty.Void, 1, 0xfe, 0x3c, "I32AtomicRmw8XorU", "i32.atomic.rmw8.xor_u", ""⟩,
  ⟨Ty.I32, Ty.I32, Ty.I32, Ty.Void, 2, 0xfe, 0x3d, "I32AtomicRmw16XorU", "i32.atomic.rmw16.xor_u", ""⟩,
  ⟨Ty.I64, Ty.I32, Ty.I64, Ty.Void, 1, 0xfe, 0x3e, "I64AtomicRmw8XorU", "i64.atomic.rmw8.xor_u", ""⟩,
  ⟨Ty.I64, Ty.I32, Ty.I64, Ty.Void, 2, 0xfe, 0x3f, "I64AtomicRmw16XorU", "i64.atomic.rmw16.xor_u", ""⟩,
  ⟨Ty.I64, Ty.I32, Ty.I64, Ty.Void, 4, 0xfe, 0x40, "I64AtomicRmw32XorU", "i64.atomic.rmw32.xor_u", ""⟩,
  ⟨Ty.I32, Ty.I32, Ty.I32, Ty.Void, 4, 0xfe, 0x41, "I32AtomicRmwXchg", "i32.atomic.rmw.xchg", ""⟩,
  ⟨Ty.I64, Ty.I32, Ty.I64, Ty.Void, 8, 0xfe, 0x42, "I64AtomicRmwXchg", "i64.atomic.rmw.xchg", ""⟩,
  ⟨Ty.I32, Ty.I32, Ty.I32, Ty.Void, 1, 0xfe, 0x43, "I32AtomicRmw8XchgU", "i32.atomic.rmw8.xchg_u", ""⟩,
  ⟨Ty.I32, Ty.I32, Ty.I32, Ty.Void, 2, 0xfe, 0x44, "I32AtomicRmw16XchgU", "i32.atomic.rmw16.xchg_u", ""⟩,
  ⟨Ty.I64, Ty.I32, Ty.I64, Ty.Void, 1, 0xfe, 0x45, "I64AtomicRmw8XchgU", "i64.atomic.rmw8.xchg_u", ""⟩,
  ⟨Ty.I64, Ty.I32, Ty.I64, Ty.Void, 2, 0xfe, 0x46, "I64AtomicRmw16XchgU", "i64.atomic.rmw16.xchg_u", ""⟩,
  ⟨Ty.I64, Ty.I32, Ty.I64, Ty.Void, 4, 0xfe, 0x47, "I64AtomicRmw32XchgU", "i64.atomic.rmw32.xchg_u", ""⟩,
  ⟨Ty.I32, Ty.I32, Ty.I32, Ty.I32, 4, 0xfe, 0x48, "I32AtomicRmwCmpxchg", "i32.atomic.rmw.cmpxchg", ""⟩,
  ⟨Ty.I64, Ty.I32, Ty.I64, Ty.I64, 8, 0xfe, 0x49, "I64AtomicRmwCmpxchg", "i64.atomic.rmw.cmpxchg", ""⟩,
  ⟨Ty.I32, Ty.I32, Ty.I32, Ty.I32, 1, 0xfe, 0x4a, "I32AtomicRmw8CmpxchgU", "i32.atomic.rmw8.cmpxchg_u", ""⟩,
  ⟨Ty.I32, Ty.I32, Ty.I32, Ty.I32, 2, 0xfe, 0x4b, "I32AtomicRmw16CmpxchgU", "i32.atomic.rmw16.cmpxchg_u", ""⟩,
  ⟨Ty.I64, Ty.I32, Ty.I64, Ty.I64, 1, 0xfe, 0x4c, "I64AtomicRmw8CmpxchgU", "i64.atomic.rmw8.cmpxchg_u", ""⟩
]

def opcodeInfosChunk7 : List OpcodeInfo := [
  ⟨Ty.I64, Ty.I32, Ty.I64, Ty.I64, 2, 0xfe, 0x4d, "I64AtomicRmw16CmpxchgU", "i64.atomic.rmw16.cmpxchg_u", ""⟩,
  ⟨Ty.I64, Ty.I32, Ty.I64, Ty.I64, 4, 0xfe, 0x4e, "I64AtomicRmw32CmpxchgU", "i64.atomic.rmw32.cmpxchg_u", ""⟩
]

def opcodeInfos : List OpcodeInfo :=
  opcodeInfosChunk0 ++ opcodeInfosChunk1 ++ opcodeInfosChunk2 ++ opcodeInfosChunk3 ++ opcodeInfosChunk4 ++ opcodeInfosChunk5 ++ opcodeInfosChunk6 ++ opcodeInfosChunk7

/-- Comparison of catalogue entries by the key `(prefix, code)`,
lexicographically and non-strictly: the order the NOTE at the top of
`opcode.def` requires the rows to be listed in. -/
def keyLe (a b : OpcodeInfo) : Prop :=
  a.pfx < b.pfx ∨ (a.pfx = b.pfx ∧ a.code ≤ b.code)

instance : DecidableRel keyLe := fun a b =>
  inferInstanceAs (Decidable (a.pfx < b.pfx ∨ (a.pfx = b.pfx ∧ a.code ≤ b.code)))

/-- Modelled from the spec: `Opcode::FromCode` (in `opcode.cc`, absent from
the sources) returns the catalogue entry carrying the requested
`(prefix, code)` encoding, or the unknown-opcode sentinel (`none` here) on a
miss.  The spec prescribes lookup by the `(prefix, code)` key; it is
realised here as the first entry with that key. -/
def fromCode (p c : Nat) : Option OpcodeInfo :=
  opcodeInfos.find? fun e => e.pfx == p && e.code == c

/-- Modelled from the spec: `Opcode::FromName` (in `opcode.cc`, absent from
the sources) returns the catalogue entry whose textual mnemonic matches the
argument exactly (case-sensitively), or the unknown-mnemonic sentinel
(`none` here) on a miss. -/
def fromName (t : String) : Option OpcodeInfo :=
  opcodeInfos.find? fun e => e.text == t

/-- The `i32.add` row of the catalogue, as written in `opcode.def`. -/
def i32AddInfo : OpcodeInfo :=
  ⟨Ty.I32, Ty.I32, Ty.I32, Ty.Void, 0, 0, 0x6a, "I32Add", "i32.add", "+"⟩

/-- The `table.copy` row of the catalogue (bulk-memory block). -/
def tableCopyInfo : OpcodeInfo :=
  ⟨Ty.Void, Ty.I32, Ty.I32, Ty.I32, 0, 0xfc, 0xe, "TableCopy", "table.copy", ""⟩

/-- The `table.get` row of the catalogue (reference-types block). -/
def tableGetInfo : OpcodeInfo :=
  ⟨Ty.Void, Ty.Void, Ty.Void, Ty.Void, 0, 0x0, 0x25, "TableGet", "table.get", ""⟩

/-- Linear distinctness check over a list of (small) naturals: `seen` is the
bitset of values already encountered. -/
def distinctAux (seen : Nat) : List Nat → Bool
  | [] => true
  | k :: rest => !seen.testBit k && distinctAux (seen ||| 2 ^ k) rest

/-- A sixteen-bit string fingerprint.  No injectivity is claimed or needed:
distinct fingerprints witness distinct strings. -/
def strHash (s : String) : Nat :=
  (s.data.foldl (fun a c => a * 103 + c.toNat) 7) % 65536

/-- Boolean check that a row sequence is sorted by the `(prefix, code)`
key. -/
def sortedByKey : List OpcodeInfo → Bool
  | [] => true
  | [_] => true
  | a :: b :: rest => decide (keyLe a b) && sortedByKey (b :: rest)

/-- Modelled from the spec: the sentinel `kInvalidIndex` (declared in
`common.h`, absent from the sources), the out-of-range all-ones 32-bit
index returned by lookups on a miss. -/
def kInvalidIndex : Nat := 2 ^ 32 - 1

/-- A symbolic-or-numeric reference (`struct Var` of `ir.h`): a tagged union
of an integer index and a name, mirroring `VarType` plus the active union
member.  Source locations are informational only and are not modelled. -/
inductive Var where
  | index (i : Nat)
  | name (s : String)
deriving DecidableEq

/-- Tag test `Var::is_index`. -/
def Var.isIndex : Var → Bool
  | .index _ => true
  | .name _ => false

/-- Tag test `Var::is_name`. -/
def Var.isName : Var → Bool
  | .index _ => false
  | .name _ => true

/-- Accessor `Var::index`, observable only in `Index` form (the source
asserts `is_index()`; the inactive payload is unobservable). -/
def Var.index? : Var → Option Nat
  | .index i => some i
  | .name _ => none

/-- Accessor `Var::name`, observable only in `Name` form (the source asserts
`is_name()`; the inactive payload is unobservable). -/
def Var.name? : Var → Option String
  | .index _ => none
  | .name _s => some _s

/-- Modelled from the spec: `Var::set_index` (body in `ir.cc`, absent from
the sources) destroys the old payload and puts the `Var` in `Index` form
holding the given index. -/
def Var.setIndex (_ : Var) (i : Nat) : Var := Var.index i

/-- Modelled from the spec: `Var::set_name` (body in `ir.cc`, absent from
the sources) destroys the old payload and puts the `Var` in `Name` form
holding the given name. -/
def Var.setName (_ : Var) (s : String) : Var := Var.name s

/-- A default-constructed `Var`: the constructor declaration
`explicit Var(Index index = kInvalidIndex, ...)` in `ir.h` makes `Var()`
the `Index`-form `Var` holding `kInvalidIndex`. -/
def varDefault : Var := Var.index kInvalidIndex

/-- The discriminator of an `ElemExpr` (`enum class ElemExprKind` of
`ir.h`). -/
inductive ElemExprKind where
  | RefNull
  | RefFunc
deriving DecidableEq

/-- An element-segment expression (`struct ElemExpr` of `ir.h`): a kind and
a `var` field that is only used when the kind is `RefFunc`. -/
structure ElemExpr where
  kind : ElemExprKind
  var : Var
deriving DecidableEq

/-- The default `ElemExpr` constructor of `ir.h`: kind `RefNull`, `var`
default-constructed. -/
def elemExprDefault : ElemExpr := ⟨ElemExprKind.RefNull, varDefault⟩

/-- The one-argument `ElemExpr(Var)` constructor of `ir.h`: kind `RefFunc`
with the given `var`. -/
def elemExprRefFunc (v : Var) : ElemExpr := ⟨ElemExprKind.RefFunc, v⟩

/-- Modelled from the spec: the segment flag bit `Passive = 1` of the flags
byte (declared in `common.h`, absent from the sources). -/
def segPassive : Nat := 1

/-- Modelled from the spec: the segment flag bit `HasIndex = 2`. -/
def segHasIndex : Nat := 2

/-- Modelled from the spec: the segment flag bit `UseElemExprs = 4`
(element segments only). -/
def segUseElemExprs : Nat := 4

/-- An element segment (`struct ElemSegment` of `ir.h`): name, owning table
reference, flags byte, and element expressions.  The element type and the
offset expression list play no part in the claims and are not modelled. -/
structure ElemSegment where
  name : String
  tableVar : Var
  flags : Nat
  elemExprs : List ElemExpr

/-- Flag test `ElemSegment::is_passive`: `flags & SegPassive` as a
boolean. -/
def ElemSegment.isPassive (s : ElemSegment) : Bool :=
  (s.flags &&& segPassive) != 0

/-- A data segment (`struct DataSegment` of `ir.h`): name, owning memory
reference, flags byte, and raw bytes.  The offset expression list plays no
part in the claims and is not modelled. -/
structure DataSegment where
  name : String
  memoryVar : Var
  flags : Nat
  data : List Nat

/-- Flag test `DataSegment::is_passive`: `flags & SegPassive` as a
boolean. -/
def DataSegment.isPassive (s : DataSegment) : Bool :=
  (s.flags &&& segPassive) != 0

/-- One run-length declaration of `LocalTypes` (`LocalTypes::Decl`, a
`(Type, Index)` pair). -/
abbrev Decl := Ty × Nat

/-- Helper `LocalTypes::AppendDecl` of `ir.h`: append a `(type, count)`
declaration unless the count is zero. -/
def appendDecl (ds : List Decl) (t : Ty) (c : Nat) : List Decl :=
  if c ≠ 0 then ds ++ [(t, c)] else ds

/-- Modelled from the spec: the loop body of `LocalTypes::Set` (in `ir.cc`,
absent from the sources): scan the remaining types with the current run
`(t, c)` open, emitting the run when the type changes. -/
def rleAux (t : Ty) (c : Nat) : List Ty → List Decl
  | [] => [(t, c)]
  | u :: rest => if u = t then rleAux t (c + 1) rest else (t, c) :: rleAux u 1 rest

/-- Modelled from the spec: `LocalTypes::Set` (in `ir.cc`, absent from the
sources) replaces the declarations by the run-length compression of the
given type vector, coalescing consecutive equal types. -/
def localTypesSet : List Ty → List Decl
  | [] => []
  | t :: rest => rleAux t 1 rest

/-- Modelled from the spec: `LocalTypes::size` (in `ir.cc`, absent from the
sources), the sum of the declaration counts. -/
def sizeDecls : List Decl → Nat
  | [] => 0
  | d :: rest => d.2 + sizeDecls rest

/-- Modelled from the spec: the indexing operator of `LocalTypes` (in
`ir.cc`, absent from the sources), an O(decls) linear scan that fails
(`none`) for an out-of-range index. -/
def localIndex : List Decl → Nat → Option Ty
  | [], _ => none
  | (t, c) :: rest, i => if i < c then some t else localIndex rest (i - c)

/-- The expansion a `LocalTypes` value presents: each declared type once per
unit of its count, in declaration order. -/
def expandDecls : List Decl → List Ty
  | [] => []
  | (t, c) :: rest => List.replicate c t ++ expandDecls rest

/-- Traversal of `LocalTypes` from `begin()` to `end()` by the inline
`const_iterator::operator++` of `ir.h`: the state is the remaining
declaration suffix (the `decl` cursor) and the intra-declaration `index`;
dereferencing yields `decl->first`, and the increment steps `index`, moving
to the next declaration with `index = 0` once `index >= decl->second`. -/
def iterTraverse : List Decl → Nat → List Ty
  | [], _ => []
  | (t, c) :: rest, i =>
    t :: (if i + 1 ≥ c then iterTraverse rest 0 else iterTraverse ((t, c) :: rest) (i + 1))
termination_by ds i => (ds.length, (ds.headD (Ty.I32, 0)).2 - i)
decreasing_by
  · simp_wf
    omega
  · simp_wf
    omega

/-- A function signature (`struct FuncSignature` of `ir.h`): ordered
parameter and result types. -/
structure FuncSignature where
  paramTypes : List Ty
  resultTypes : List Ty
deriving DecidableEq

/-- A function declaration (`struct FuncDeclaration` of `ir.h`): an optional
reference to a named function type plus an inline signature. -/
structure FuncDeclaration where
  hasFuncType : Bool
  typeVar : Var
  sig : FuncSignature
deriving DecidableEq

/-- A function (`struct Func` of `ir.h`): name, declaration, run-length
locals and the local-name binding table.  The body expression list plays no
part in the claims and is not modelled. -/
structure Func where
  name : String
  decl : FuncDeclaration
  localTypes : List Decl
  bindings : List (String × Nat)

/-- Accessor `Func::GetNumParams`, through `decl.GetNumParams()`. -/
def Func.getNumParams (f : Func) : Nat := f.decl.sig.paramTypes.length

/-- Modelled from the spec: `Func::GetLocalType(Index)` (in `ir.cc`, absent
from the sources): for an index below the parameter count return that
parameter type from `decl.sig`, otherwise index `local_types` with the
index less the parameter count. -/
def Func.getLocalType (f : Func) (i : Nat) : Option Ty :=
  if i < f.getNumParams then f.decl.sig.paramTypes[i]?
  else localIndex f.localTypes (i - f.getNumParams)

/-- External kinds (`enum class ExternalKind` of `common.h`, as used by
`ir.h`). -/
inductive ExternalKind where
  | Func
  | Table
  | Memory
  | Global
  | Event
deriving DecidableEq

/-- Modelled from the spec: `BindingHash::FindIndex(name)` (in
`binding-hash.h/.cc`, absent from the sources): look the name up in the
binding table, returning `kInvalidIndex` on a miss; with duplicate names the
first-inserted binding wins. -/
def findIndexName (bindings : List (String × Nat)) (nm : String) : Nat :=
  match bindings.find? fun b => b.1 == nm with
  | some b => b.2
  | none => kInvalidIndex

/-- Modelled from the spec: `BindingHash::FindIndex(Var)`: a numeric `Var`
is returned verbatim, a named `Var` is looked up by name. -/
def findIndexVar (bindings : List (String × Nat)) : Var → Nat
  | Var.index i => i
  | Var.name s => findIndexName bindings s

/-- A module (`struct Module` of `ir.h`), restricted to the per-kind caches,
per-kind import counts and per-kind binding tables the claims concern.  The
field list, function types, segments, exports and starts are not modelled;
the cached `funcs` handles are represented by the `Func` payloads and the
other caches by their payload names. -/
structure Module where
  funcs : List Func
  tables : List String
  memories : List String
  globals : List String
  events : List String
  numFuncImports : Nat
  numTableImports : Nat
  numMemoryImports : Nat
  numGlobalImports : Nat
  numEventImports : Nat
  funcBindings : List (String × Nat)
  tableBindings : List (String × Nat)
  memoryBindings : List (String × Nat)
  globalBindings : List (String × Nat)
  eventBindings : List (String × Nat)

/-- A module with no fields appended yet. -/
def emptyModule : Module := ⟨[], [], [], [], [], 0, 0, 0, 0, 0, [], [], [], [], []⟩

/-- The binding table of the namespace for a given external kind. -/
def Module.bindingsOf (m : Module) : ExternalKind → List (String × Nat)
  | .Func => m.funcBindings
  | .Table => m.tableBindings
  | .Memory => m.memoryBindings
  | .Global => m.globalBindings
  | .Event => m.eventBindings

/-- The count of leading imported entries for a given external kind. -/
def Module.numImportsOf (m : Module) : ExternalKind → Nat
  | .Func => m.numFuncImports
  | .Table => m.numTableImports
  | .Memory => m.numMemoryImports
  | .Global => m.numGlobalImports
  | .Event => m.numEventImports

/-- Modelled from the spec: `Module::GetFuncIndex` (in `ir.cc`, absent from
the sources): resolve a `Var` through the function binding table. -/
def Module.getFuncIndex (m : Module) (v : Var) : Nat :=
  findIndexVar m.funcBindings v

/-- The kind-dispatched `GetXIndex` lookup: resolve a `Var` through the
binding table of the given kind. -/
def Module.getIndexOf (m : Module) (k : ExternalKind) (v : Var) : Nat :=
  findIndexVar (m.bindingsOf k) v

/-- Modelled from the spec: `Module::IsImport(kind, var)` (in `ir.cc`,
absent from the sources): dispatch on the kind and test whether the
resolved index falls below that kind's import count. -/
def Module.isImport (m : Module) (k : ExternalKind) (v : Var) : Bool :=
  match k with
  | .Func => decide (findIndexVar m.funcBindings v < m.numFuncImports)
  | .Table => decide (findIndexVar m.tableBindings v < m.numTableImports)
  | .Memory => decide (findIndexVar m.memoryBindings v < m.numMemoryImports)
  | .Global => decide (findIndexVar m.globalBindings v < m.numGlobalImports)
  | .Event => decide (findIndexVar m.eventBindings v < m.numEventImports)

/-- Modelled from the spec: `Module::AppendField` on an `ImportModuleField`
wrapping a `FuncImport`: the function is appended to the `funcs` cache, the
function import count is incremented, and a non-empty name is bound to the
new cache position. -/
def Module.appendFuncImportField (m : Module) (f : Func) : Module :=
  { m with
    funcs := m.funcs ++ [f]
    numFuncImports := m.numFuncImports + 1
    funcBindings :=
      if f.name = "" then m.funcBindings
      else m.funcBindings ++ [(f.name, m.funcs.length)] }

/-- Modelled from the spec: `Module::AppendField` on a `FuncModuleField`:
the function is appended to the `funcs` cache and a non-empty name is bound
to the new cache position. -/
def Module.appendFuncField (m : Module) (f : Func) : Module :=
  { m with
    funcs := m.funcs ++ [f]
    funcBindings :=
      if f.name = "" then m.funcBindings
      else m.funcBindings ++ [(f.name, m.funcs.length)] }

/-- An unnamed function with an empty signature and no locals. -/
def blankFunc : Func := ⟨"", ⟨false, varDefault, ⟨[], []⟩⟩, [], []⟩

/-- The scenario of the spec: one imported function appended, then one
defined function appended. -/
def importThenDefineModule : Module :=
  (emptyModule.appendFuncImportField blankFunc).appendFuncField blankFunc

/-- A sample function with one `i32` parameter and one `f64` local, used to
instantiate the local-indexing theorem. -/
def sampleFunc : Func :=
  ⟨"f", ⟨false, varDefault, ⟨[Ty.I32], []⟩⟩, [(Ty.F64, 1)], []⟩

theorem distinctAux_sound :
    ∀ (l : List Nat) (seen : Nat),
      distinctAux seen l = true →
      l.Nodup ∧ ∀ k ∈ l, seen.testBit k = false := by
  intro l
  induction l with
  | nil =>
    intro seen _
    exact ⟨List.nodup_nil, by simp⟩
  | cons k rest ih =>
    intro seen h
    simp only [distinctAux, Bool.and_eq_true, Bool.not_eq_true'] at h
    obtain ⟨h1, h2⟩ := h
    obtain ⟨hnd, hmem⟩ := ih (seen ||| 2 ^ k) h2
    refine ⟨List.nodup_cons.mpr ⟨fun hk => ?_, hnd⟩, ?_⟩
    · have hbit := hmem k hk
      rw [Nat.testBit_or, Nat.testBit_two_pow_self, Bool.or_true] at hbit
      exact Bool.true_eq_false.mp hbit
    · intro j hj
      rcases List.mem_cons.mp hj with rfl | hj'
      · exact h1
      · have hbit := hmem j hj'
        rw [Nat.testBit_or, Bool.or_eq_false_iff] at hbit
        exact hbit.1

set_option exponentiation.threshold 70000 in
set_option maxRecDepth 40000 in
theorem opcode_keys_nodup :
    (opcodeInfos.map fun e => (e.pfx, e.code)).Nodup := by
  have h : distinctAux 0 (opcodeInfos.map fun e => e.pfx * 256 + e.code) = true := by decide
  have h2 : ((opcodeInfos.map fun e => (e.pfx, e.code)).map
      fun p => p.1 * 256 + p.2).Nodup := by
    rw [List.map_map]
    exact (distinctAux_sound _ 0 h).1
  exact List.Nodup.of_map _ h2

set_option exponentiation.threshold 70000 in
set_option maxRecDepth 40000 in
theorem opcode_texts_nodup :
    (opcodeInfos.map OpcodeInfo.text).Nodup := by
  have h : distinctAux 0 (opcodeInfos.map fun e => strHash e.text) = true := by decide
  have h2 : ((opcodeInfos.map OpcodeInfo.text).map strHash).Nodup := by
    rw [List.map_map]
    exact (distinctAux_sound _ 0 h).1
  exact List.Nodup.of_map _ h2

theorem find?_eq_of_unique {α : Type} (l : List α) (p : α → Bool) (e : α)
    (he : e ∈ l) (hpe : p e = true)
    (huniq : ∀ x ∈ l, p x = true → x = e) :
    l.find? p = some e := by
  induction l with
  | nil => cases he
  | cons a t ih =>
    by_cases hpa : p a = true
    · have hae : a = e := huniq a (List.mem_cons_self a t) hpa
      rw [List.find?_cons_of_pos _ hpa, hae]
    · have he' : e ∈ t := by
        rcases List.mem_cons.mp he with rfl | h'
        · exact absurd hpe hpa
        · exact h'
      rw [List.find?_cons_of_neg _ (by simpa using hpa)]
      exact ih he' fun x hx hpx => huniq x (List.mem_cons_of_mem a hx) hpx

theorem sortedByKey_iff_chain' : ∀ l : List OpcodeInfo,
    sortedByKey l = true ↔ List.Chain' keyLe l
  | [] => by simp [sortedByKey]
  | [a] => by simp [sortedByKey]
  | a :: b :: rest => by
    have ih := sortedByKey_iff_chain' (b :: rest)
    simp [sortedByKey, List.chain'_cons, ih, and_comm]

set_option maxRecDepth 100000 in
/-- Claim C1: the opcode catalogue is well-formed in that every two distinct
entries differ on the `(prefix, code)` key and on the textual mnemonic; but
the sequence of rows, in declaration order, is NOT sorted by `(prefix,
code)`: the reference-types rows (`table.get` at `(0, 0x25)` onwards) come
after the bulk-memory `0xfc` block, so the adjacent rows 203 (`table.copy`,
key `(0xfc, 0x0e)`) and 204 (`table.get`, key `(0, 0x25)`) are out of
order, contrary to the NOTE at the top of `opcode.def` that the list must
be kept sorted for binary search. -/
theorem opcode_table_unique_but_not_sorted :
    ((opcodeInfos.map fun e => (e.pfx, e.code)).Nodup
      ∧ (opcodeInfos.map OpcodeInfo.text).Nodup)
    ∧ ¬ List.Chain' keyLe opcodeInfos
    ∧ opcodeInfos[203]? = some tableCopyInfo
    ∧ opcodeInfos[204]? = some tableGetInfo
    ∧ ¬ keyLe tableCopyInfo tableGetInfo :=
  ⟨⟨opcode_keys_nodup, opcode_texts_nodup⟩,
   by rw [← sortedByKey_iff_chain']; decide,
   by decide, by decide, by decide⟩

/-- Claim C2: catalogue lookup round-trips on every entry, and in particular
`fromName "i32.add"` returns the `I32Add` entry with prefix `0`, code
`0x6a`, result type `I32`, operand types `(I32, I32)` and memory size `0`. -/
theorem opcode_lookup_roundtrip :
    (∀ e ∈ opcodeInfos, fromCode e.pfx e.code = some e ∧ fromName e.text = some e)
    ∧ fromName "i32.add" = some i32AddInfo
    ∧ i32AddInfo.pfx = 0 ∧ i32AddInfo.code = 0x6a ∧ i32AddInfo.tr = Ty.I32
    ∧ i32AddInfo.t1 = Ty.I32 ∧ i32AddInfo.t2 = Ty.I32 ∧ i32AddInfo.t3 = Ty.Void
    ∧ i32AddInfo.memSize = 0 := by
  have main : ∀ e ∈ opcodeInfos,
      fromCode e.pfx e.code = some e ∧ fromName e.text = some e := by
    intro e he
    constructor
    · refine find?_eq_of_unique _ _ _ he (by simp) ?_
      intro x hx hpx
      simp only [Bool.and_eq_true, beq_iff_eq] at hpx
      have hkey : (x.pfx, x.code) = (e.pfx, e.code) := by rw [hpx.1, hpx.2]
      exact List.inj_on_of_nodup_map opcode_keys_nodup hx he hkey
    · refine find?_eq_of_unique _ _ _ he (by simp) ?_
      intro x hx hpx
      simp only [beq_iff_eq] at hpx
      exact List.inj_on_of_nodup_map opcode_texts_nodup hx he hpx
  exact ⟨main, (main i32AddInfo (by decide)).2, rfl, rfl, rfl, rfl, rfl, rfl, rfl⟩

theorem opcode_lookup_roundtrip_witness :
    fromCode i32AddInfo.pfx i32AddInfo.code = some i32AddInfo
    ∧ fromName i32AddInfo.text = some i32AddInfo :=
  opcode_lookup_roundtrip.1 i32AddInfo (by decide)


theorem expandDecls_rleAux :
    ∀ (rest : List Ty) (t : Ty) (c : Nat),
      expandDecls (rleAux t c rest) = List.replicate c t ++ rest := by
  intro rest
  induction rest with
  | nil => intro t c; simp [rleAux, expandDecls]
  | cons u rest ih =>
    intro t c
    by_cases h : u = t
    · subst h
      rw [rleAux, if_pos rfl, ih, List.replicate_succ']
      simp
    · simp only [rleAux, if_neg h, expandDecls, ih]
      simp

theorem expandDecls_localTypesSet (v : List Ty) :
    expandDecls (localTypesSet v) = v := by
  cases v with
  | nil => rfl
  | cons t rest =>
    rw [localTypesSet, expandDecls_rleAux]
    simp

theorem sizeDecls_eq_length (ds : List Decl) :
    sizeDecls ds = (expandDecls ds).length := by
  induction ds with
  | nil => rfl
  | cons d rest ih =>
    obtain ⟨t, c⟩ := d
    simp [sizeDecls, expandDecls, ih]

theorem rleAux_counts_pos :
    ∀ (rest : List Ty) (t : Ty) (c : Nat), 0 < c →
      ∀ d ∈ rleAux t c rest, 0 < d.2 := by
  intro rest
  induction rest with
  | nil =>
    intro t c hc d hd
    simp only [rleAux, List.mem_singleton] at hd
    rw [hd]
    exact hc
  | cons u rest ih =>
    intro t c hc d hd
    by_cases h : u = t
    · subst h
      simp only [rleAux, if_pos rfl] at hd
      exact ih u (c + 1) (Nat.succ_pos c) d hd
    · simp only [rleAux, if_neg h, List.mem_cons] at hd
      rcases hd with rfl | hd'
      · exact hc
      · exact ih u 1 Nat.one_pos d hd'

theorem localTypesSet_counts_pos (v : List Ty) :
    ∀ d ∈ localTypesSet v, 0 < d.2 := by
  cases v with
  | nil => simp [localTypesSet]
  | cons t rest => exact rleAux_counts_pos rest t 1 Nat.one_pos

theorem iterTraverse_run :
    ∀ (k : Nat) (t : Ty) (c : Nat) (rest : List Decl) (i : Nat), i + k + 1 = c →
      iterTraverse ((t, c) :: rest) i = List.replicate (k + 1) t ++ iterTraverse rest 0 := by
  intro k
  induction k with
  | zero =>
    intro t c rest i hc
    rw [iterTraverse, if_pos (by omega)]
    simp
  | succ k ih =>
    intro t c rest i hc
    rw [iterTraverse, if_neg (by omega), ih t c rest (i + 1) (by omega)]
    simp [List.replicate_succ]

theorem iterTraverse_eq_expandDecls :
    ∀ ds : List Decl, (∀ d ∈ ds, 0 < d.2) → iterTraverse ds 0 = expandDecls ds := by
  intro ds
  induction ds with
  | nil => intro _; rw [iterTraverse]; rfl
  | cons d rest ih =>
    obtain ⟨t, c⟩ := d
    intro hpos
    have hc : 0 < c := hpos (t, c) (List.mem_cons_self _ _)
    rw [iterTraverse_run (c - 1) t c rest 0 (by omega),
        ih fun d hd => hpos d (List.mem_cons_of_mem _ hd)]
    have hsub : c - 1 + 1 = c := by omega
    rw [hsub, expandDecls]

theorem localIndex_eq_getElem :
    ∀ (ds : List Decl) (i : Nat), localIndex ds i = (expandDecls ds)[i]? := by
  intro ds
  induction ds with
  | nil => intro i; simp [localIndex, expandDecls]
  | cons d rest ih =>
    obtain ⟨t, c⟩ := d
    intro i
    by_cases h : i < c
    · rw [localIndex, if_pos h, expandDecls,
          List.getElem?_append_left (by simpa using h),
          List.getElem?_replicate_of_lt h]
    · rw [localIndex, if_neg h, ih, expandDecls,
          List.getElem?_append_right (by simp; omega)]
      simp

/-- Claim C3: setting a `LocalTypes` from a type vector and iterating from
`begin()` to `end()` yields exactly that vector, and `size()` is its
length; on the concrete input `[i32, i32, f64, i32]` the stored decls are
`[(i32, 2), (f64, 1), (i32, 1)]`, `size()` is `4`, and `operator[](3)` is
`i32`. -/
theorem localTypes_set_iteration :
    (∀ v : List Ty,
        iterTraverse (localTypesSet v) 0 = v
        ∧ sizeDecls (localTypesSet v) = v.length)
    ∧ localTypesSet [Ty.I32, Ty.I32, Ty.F64, Ty.I32]
        = [(Ty.I32, 2), (Ty.F64, 1), (Ty.I32, 1)]
    ∧ sizeDecls (localTypesSet [Ty.I32, Ty.I32, Ty.F64, Ty.I32]) = 4
    ∧ localIndex (localTypesSet [Ty.I32, Ty.I32, Ty.F64, Ty.I32]) 3 = some Ty.I32
    ∧ iterTraverse (localTypesSet [Ty.I32, Ty.I32, Ty.F64, Ty.I32]) 0
        = [Ty.I32, Ty.I32, Ty.F64, Ty.I32] := by
  have main : ∀ v : List Ty,
      iterTraverse (localTypesSet v) 0 = v
      ∧ sizeDecls (localTypesSet v) = v.length := by
    intro v
    constructor
    · rw [iterTraverse_eq_expandDecls _ (localTypesSet_counts_pos v),
          expandDecls_localTypesSet]
    · rw [sizeDecls_eq_length, expandDecls_localTypesSet]
  exact ⟨main, by decide, by decide, by decide, (main _).1⟩

theorem foldl_appendDecl_pos :
    ∀ (calls : List Decl) (s : List Decl), (∀ d ∈ s, 0 < d.2) →
      ∀ d ∈ calls.foldl (fun acc p => appendDecl acc p.1 p.2) s, 0 < d.2 := by
  intro calls
  induction calls with
  | nil => intro s hs; simpa using hs
  | cons p rest ih =>
    intro s hs
    rw [List.foldl_cons]
    apply ih
    intro d hd
    rcases Nat.eq_zero_or_pos p.2 with h0 | hpos
    · rw [appendDecl, h0, if_neg (by simp)] at hd
      exact hs d hd
    · rw [appendDecl, if_pos (Nat.pos_iff_ne_zero.mp hpos)] at hd
      rcases List.mem_append.mp hd with h | h
      · exact hs d h
      · rw [List.mem_singleton.mp h]
        exact hpos

/-- Claim C4: `AppendDecl(t, 0)` leaves the declarations unchanged, and any
sequence of `AppendDecl` calls starting from an empty `LocalTypes` leaves
every stored declaration with a positive count. -/
theorem appendDecl_zero_noop_and_counts_pos :
    (∀ (ds : List Decl) (t : Ty), appendDecl ds t 0 = ds)
    ∧ ∀ calls : List Decl,
        ∀ d ∈ calls.foldl (fun acc p => appendDecl acc p.1 p.2) [], 0 < d.2 := by
  constructor
  · intro ds t
    simp [appendDecl]
  · intro calls
    exact foldl_appendDecl_pos calls [] (by simp)

theorem appendDecl_counts_pos_witness :
    0 < ((Ty.I32, 2) : Decl).2 :=
  appendDecl_zero_noop_and_counts_pos.2 [(Ty.I32, 2)] (Ty.I32, 2) (by decide)

/-- Claim C5: `Func::GetLocalType(i)` returns the `i`-th parameter type of
`decl.sig` when `i` is below the parameter count, and otherwise indexes
`local_types` with `i` less the parameter count (equivalently, the
run-length expansion of the locals at that offset). -/
theorem func_getLocalType_spec :
    ∀ (f : Func) (i : Nat),
      (i < f.getNumParams → f.getLocalType i = f.decl.sig.paramTypes[i]?)
      ∧ (f.getNumParams ≤ i →
          f.getLocalType i = localIndex f.localTypes (i - f.getNumParams)
          ∧ f.getLocalType i = (expandDecls f.localTypes)[i - f.getNumParams]?) := by
  intro f i
  constructor
  · intro h
    rw [Func.getLocalType, if_pos h]
  · intro h
    have h1 : f.getLocalType i = localIndex f.localTypes (i - f.getNumParams) := by
      rw [Func.getLocalType, if_neg (by omega)]
    exact ⟨h1, h1.trans (localIndex_eq_getElem _ _)⟩

theorem func_getLocalType_witness :
    sampleFunc.getLocalType 0 = some Ty.I32
    ∧ sampleFunc.getLocalType 1 = some Ty.F64 :=
  ⟨((func_getLocalType_spec sampleFunc 0).1 (by decide)).trans (by decide),
   ((func_getLocalType_spec sampleFunc 1).2 (by decide)).1.trans (by decide)⟩

/-- Claim C6: `Module::IsImport(kind, var)` holds exactly when the index the
kind's `GetXIndex` lookup resolves the `Var` to is strictly below that
kind's import count; and in the scenario of one imported function followed
by one defined function, `num_func_imports` is `1`, `IsImport(Func,
Var(0))` holds, `IsImport(Func, Var(1))` does not, and `funcs.size()` is
`2`. -/
theorem isImport_iff_and_scenario :
    (∀ (m : Module) (k : ExternalKind) (v : Var),
        m.isImport k v = true ↔ m.getIndexOf k v < m.numImportsOf k)
    ∧ importThenDefineModule.numFuncImports = 1
    ∧ importThenDefineModule.isImport ExternalKind.Func (Var.index 0) = true
    ∧ importThenDefineModule.isImport ExternalKind.Func (Var.index 1) = false
    ∧ importThenDefineModule.funcs.length = 2 := by
  refine ⟨?_, rfl, by decide, by decide, rfl⟩
  intro m k v
  cases k <;>
    simp [Module.isImport, Module.getIndexOf, Module.bindingsOf, Module.numImportsOf]

/-- Claim C7: `is_passive()` of an element or data segment holds exactly
when bit 0 (`Passive = 1`) of the flags byte is set, and a passive element
segment using explicit element expressions carries the flags byte
`Passive | UseElemExprs = 0x05`. -/
theorem segment_passive_flag :
    (∀ s : ElemSegment, s.isPassive = true ↔ s.flags.testBit 0 = true)
    ∧ (∀ s : DataSegment, s.isPassive = true ↔ s.flags.testBit 0 = true)
    ∧ (segPassive ||| segUseElemExprs) = 5
    ∧ (ElemSegment.mk "" varDefault (segPassive ||| segUseElemExprs) []).isPassive = true := by
  have key : ∀ n : Nat, ((n &&& segPassive) != 0) = true ↔ n.testBit 0 = true := by
    intro n
    simp only [segPassive, Nat.and_one_is_mod, Nat.testBit_zero, bne_iff_ne, ne_eq,
      decide_eq_true_eq]
    omega
  exact ⟨fun s => key s.flags, fun s => key s.flags, by decide, by decide⟩

/-- Claim C8: `set_name` on an index-form `Var` yields a name-form `Var`
and `set_index` on a name-form `Var` yields an index-form `Var`; in each
state only the active payload is observable (the inactive accessor returns
nothing). -/
theorem var_set_name_set_index :
    ∀ (i : Nat) (s : String) (j : Nat),
      ((Var.index i).setName s).isName = true
      ∧ ((Var.index i).setName s).name? = some s
      ∧ ((Var.index i).setName s).index? = none
      ∧ ((Var.name s).setIndex j).isIndex = true
      ∧ ((Var.name s).setIndex j).index? = some j
      ∧ ((Var.name s).setIndex j).name? = none :=
  fun _ _ _ => ⟨rfl, rfl, rfl, rfl, rfl, rfl⟩

/-- Claim C9: a default-constructed `Var` is in `Index` form holding
`kInvalidIndex`, and is not in `Name` form. -/
theorem var_default_invalid_index :
    varDefault.isIndex = true ∧ varDefault.isName = false
    ∧ varDefault.index? = some kInvalidIndex ∧ varDefault.name? = none :=
  ⟨rfl, rfl, rfl, rfl⟩

/-- Claim C10: the kind of an `ElemExpr` is fixed by its constructor: the
default constructor yields kind `RefNull`, and the `Var` constructor yields
kind `RefFunc` carrying that `Var` in its `var` field. -/
theorem elemExpr_kind_by_ctor :
    elemExprDefault.kind = ElemExprKind.RefNull
    ∧ elemExprDefault.var = varDefault
    ∧ ∀ v : Var,
        (elemExprRefFunc v).kind = ElemExprKind.RefFunc ∧ (elemExprRefFunc v).var = v :=
  ⟨rfl, rfl, fun _ => ⟨rfl, rfl⟩⟩

end Wabt
